import Mathlib

/-!
Verification development for the `iconify-loader` pipeline: a batch tool that
reads SVG icon files, optionally optimizes them through an external engine, and
renders React components, SVG string modules, or JSON metadata.

The TypeScript sources are embedded shallowly:
* strings are Lean `String` / `List Char`; the regular-expression scans of the
  source are implemented as explicit character-list scanners with the same
  leftmost-match semantics;
* the filesystem and the external SVGO engine are oracles collected in an
  `Env` record (directory walk result, per-path write success, engine result);
* thrown JS exceptions become `Except IconErr`; the three error classes of the
  source (`ValidationError`, `FileSystemError`, `SVGProcessingError`) are the
  three constructors of `IconErr`;
* file writes are logged as the list of written paths, in write order.
-/

/-- JS `\s` whitespace (the subset relevant to SVG text). -/
def isWs (c : Char) : Bool :=
  c = ' ' || c = '\t' || c = '\n' || c = '\r'

/-- `leadsWith pat l` is true when `pat` is an initial segment of `l`
(used to model literal substring search). -/
def leadsWith : List Char → List Char → Bool
  | [], _ => true
  | _ :: _, [] => false
  | a :: as, b :: bs => a = b && leadsWith as bs

/-- Case-insensitive variant of `leadsWith`; the pattern is given lowercased. -/
def leadsWithCI : List Char → List Char → Bool
  | [], _ => true
  | _ :: _, [] => false
  | a :: as, b :: bs => a = b.toLower && leadsWithCI as bs

/-- `hasSub nd l`: `nd` occurs somewhere in `l` (models JS `String.includes`). -/
def hasSub (nd : List Char) : List Char → Bool
  | [] => leadsWith nd []
  | c :: cs => leadsWith nd (c :: cs) || hasSub nd cs

/-- Models JS `String.endsWith`. -/
def endsWithL (nd l : List Char) : Bool :=
  leadsWith nd.reverse l.reverse

/-- Models JS `String.trim` (drop whitespace at both ends). -/
def trimL (l : List Char) : List Char :=
  ((l.dropWhile isWs).reverse.dropWhile isWs).reverse

/-- First occurrence replacement of a (nonempty) literal target, as in JS
`String.replace(target, repl)` with a string first argument. -/
def replaceFirstL (tgt repl : List Char) : List Char → List Char
  | [] => []
  | c :: cs =>
    if leadsWith tgt (c :: cs) then repl ++ List.drop tgt.length (c :: cs)
    else c :: replaceFirstL tgt repl cs

/-- Consume a lowercased pattern case-insensitively from the front of input;
returns the rest on success. -/
def eatCI : List Char → List Char → Option (List Char)
  | [], l => some l
  | _ :: _, [] => none
  | p :: ps, c :: cs => if c.toLower = p then eatCI ps cs else none

def isQuote (c : Char) : Bool := c = '"' || c = '\''

/-- One attempt of the attribute regex `/NAME\s*=\s*["']([^"']+)["']/i` at the
current position: the (lowercased) attribute name, then optional whitespace,
`=`, optional whitespace, a quote of either kind, a nonempty run of non-quote
characters (the captured value), and a closing quote of either kind. -/
def attrTry (name : List Char) (l : List Char) : Option (List Char) :=
  match eatCI name l with
  | none => none
  | some r1 =>
    match (r1.dropWhile isWs) with
    | '=' :: r3 =>
      match (r3.dropWhile isWs) with
      | q :: r5 =>
        if isQuote q then
          let v := r5.takeWhile (fun c => !(isQuote c))
          match v, r5.dropWhile (fun c => !(isQuote c)) with
          | [], _ => none
          | _ :: _, _ :: _ => some v
          | _ :: _, [] => none
        else none
      | [] => none
    | _ => none

/-- Leftmost match of the attribute regex over the whole content: the scan
tries every position left to right and returns the first captured value (models
`String.match` with a non-global regex). -/
def attrScan (name : List Char) : List Char → Option (List Char)
  | [] => none
  | c :: cs =>
    match attrTry name (c :: cs) with
    | some v => some v
    | none => attrScan name cs

/-- The record of attributes `FileReader.extractSVGAttributes` returns:
only the attributes found are present. -/
structure SVGAttrs where
  viewBox : Option String := none
  width : Option String := none
  height : Option String := none
  fill : Option String := none
  stroke : Option String := none
  deriving Repr, DecidableEq

namespace FileReader

/-- `FileReader.extractSVGAttributes`: five independent case-insensitive
single-match regex scans over the raw content; first match wins. -/
def extractSVGAttributes (content : String) : SVGAttrs :=
  { viewBox := (attrScan "viewbox".data content.data).map List.asString
    width := (attrScan "width".data content.data).map List.asString
    height := (attrScan "height".data content.data).map List.asString
    fill := (attrScan "fill".data content.data).map List.asString
    stroke := (attrScan "stroke".data content.data).map List.asString }

end FileReader

/-! ## Data model (src/types) -/

/-- `FileInfo`: one discovered input file (content always read). -/
structure FileInfo where
  path : String
  name : String
  extension : String
  content : String
  deriving Repr, DecidableEq

/-- `SVGMetadata` as populated by the pipeline: the spread of
`extractSVGAttributes` only ever sets `viewBox`, `width`, `height`, `fill`,
`stroke` (as strings); `strokeWidth` and `className` stay absent. -/
structure SVGMetadata where
  name : String
  originalName : String
  path : String
  size : Nat
  width : Option String := none
  height : Option String := none
  viewBox : Option String := none
  fill : Option String := none
  stroke : Option String := none
  strokeWidth : Option String := none
  className : Option String := none
  deriving Repr, DecidableEq

/-- `ProcessedSVG`. -/
structure ProcessedSVG where
  metadata : SVGMetadata
  content : String
  optimized : Bool := false
  deriving Repr, DecidableEq

/-- `GenerationResult`. -/
structure GenerationResult where
  success : Bool
  files : List String
  errors : List String
  warnings : List String
  deriving Repr, DecidableEq

/-- A user-supplied SVGO plugin entry (`{ name, params? }`); params modelled
as a key/value list. -/
structure UserPlugin where
  name : String
  params : List (String × String) := []
  deriving Repr, DecidableEq

/-- `SVGOOptions`: every optional boolean toggle of the interface, the two
numeric precisions and the plugin list. `none` models an absent key. -/
structure SVGOOptions where
  plugins : Option (List UserPlugin) := none
  multipass : Option Bool := none
  floatPrecision : Option Int := none
  transformPrecision : Option Int := none
  makePathsRelative : Option Bool := none
  convertShapeToPath : Option Bool := none
  mergePaths : Option Bool := none
  convertTransform : Option Bool := none
  removeOffCanvasPaths : Option Bool := none
  removeDimensions : Option Bool := none
  removeAttrs : Option Bool := none
  removeElementsByAttr : Option Bool := none
  addClassesToSVG : Option Bool := none
  removeTitle : Option Bool := none
  removeDesc : Option Bool := none
  removeUselessStrokeAndFill : Option Bool := none
  removeUnusedNS : Option Bool := none
  cleanupListOfValues : Option Bool := none
  sortAttrs : Option Bool := none
  removeDoctype : Option Bool := none
  removeXMLProcInst : Option Bool := none
  removeComments : Option Bool := none
  removeMetadata : Option Bool := none
  removeEditorsNSData : Option Bool := none
  removeEmptyAttrs : Option Bool := none
  removeHiddenElems : Option Bool := none
  removeEmptyText : Option Bool := none
  removeEmptyContainers : Option Bool := none
  minifyStyles : Option Bool := none
  convertStyleToAttrs : Option Bool := none
  convertColors : Option Bool := none
  convertPathData : Option Bool := none
  convertEllipseToCircle : Option Bool := none
  convertUseToSymbol : Option Bool := none
  convertSymbolToPath : Option Bool := none
  convertPolygonToPath : Option Bool := none
  moveGroupAttrsToElems : Option Bool := none
  moveElemsAttrsToGroup : Option Bool := none
  collapseGroups : Option Bool := none
  convertGToUse : Option Bool := none
  reusePaths : Option Bool := none

/-- `IconifyLoaderOptions`. `inputDir` and `format` are `Option` so that a
missing required key is representable; the two namer callbacks are function
values; `svgProps` values are modelled as strings. -/
structure IconifyLoaderOptions where
  inputDir : Option String := none
  outputDir : Option String := none
  format : Option String := none
  svgoOptions : Option SVGOOptions := none
  optimize : Option Bool := none
  generateIndex : Option Bool := none
  typescript : Option Bool := none
  reactComponentName : Option (String → String) := none
  svgProps : Option (List (String × String)) := none
  fileNameFormatter : Option (String → String) := none
  includeSubdirs : Option Bool := none
  ignorePatterns : Option (List String) := none
  verbose : Option Bool := none

/-- The three error classes of `src/types`. -/
inductive IconErr where
  | validation (msg : String)
  | filesystem (msg : String)
  | svgProcessing (msg : String)
  deriving Repr, DecidableEq

def IconErr.message : IconErr → String
  | .validation m => m
  | .filesystem m => m
  | .svgProcessing m => m

/-- An optional boolean option is truthy exactly when it is `some true`
(JS `if (x)` on a `boolean | undefined`). -/
def truthy (o : Option Bool) : Bool := o.getD false

/-- JS template-literal interpolation of a possibly-undefined string. -/
def interp : Option String → String
  | some s => s
  | none => "undefined"

/-! ## FileReader.validateSVGContent -/

namespace FileReader

/-- `FileReader.validateSVGContent`: empty content is a `ValidationError`;
content whose trimmed text does not contain `<svg` (the source also tests
`startsWith('<svg')`, which is subsumed by `includes`) is an
`SVGProcessingError`; content with neither `</svg>` nor a trailing `/>` is an
`SVGProcessingError`. -/
def validateSVGContent (content : String) (fileName : String) : Except IconErr Unit :=
  if content = "" then
    .error (.validation ("Invalid SVG content in file: " ++ fileName))
  else
    let t := trimL content.data
    if !(hasSub "<svg".data t) then
      .error (.svgProcessing ("File does not appear to be a valid SVG: " ++ fileName))
    else if !(hasSub "</svg>".data t) && !(endsWithL "/>".data t) then
      .error (.svgProcessing ("SVG file appears to be malformed: " ++ fileName))
    else
      .ok ()

end FileReader

/-! ## Environment oracles -/

/-- The `overrides` payload of the generated `preset-default` plugin entry in
`SVGOptimizer.buildSVGOPlugins`. -/
structure PresetOverrides where
  removeViewBox : Bool
  removeDimensions : Bool
  removeAttrs : Bool
  removeElementsByAttr : Bool
  addClassesToSVG : Bool
  removeTitle : Bool
  removeDesc : Bool
  removeUselessStrokeAndFill : Bool
  removeUnusedNS : Bool
  cleanupListOfValues : Bool
  sortAttrs : Bool
  removeDoctype : Bool
  removeXMLProcInst : Bool
  removeComments : Bool
  removeMetadata : Bool
  removeEditorsNSData : Bool
  removeEmptyAttrs : Bool
  removeHiddenElems : Bool
  removeEmptyText : Bool
  removeEmptyContainers : Bool
  minifyStyles : Bool
  convertStyleToAttrs : Bool
  convertColors : Bool
  convertPathData : Bool
  convertEllipseToCircle : Bool
  convertUseToSymbol : Bool
  convertSymbolToPath : Bool
  convertPolygonToPath : Bool
  moveGroupAttrsToElems : Bool
  moveElemsAttrsToGroup : Bool
  collapseGroups : Bool
  convertGToUse : Bool
  reusePaths : Bool
  deriving Repr, DecidableEq

/-- `BuiltPlugin`: an entry of the plugin list assembled by
`SVGOptimizer.buildSVGOPlugins` — either the generated `preset-default`
configuration or a user-supplied plugin object. -/
inductive BuiltPlugin where
  | presetDefault (overrides : PresetOverrides)
  | custom (p : UserPlugin)
  deriving Repr, DecidableEq

/-- The external collaborators of the pipeline, collected as oracles:
the walker result, the SVGO engine, and the filesystem write/mkdir calls. -/
structure Env where
  /-- Result of `FileReader.readSVGFiles` (already filtered to `.svg`):
  either the file list or the message of a thrown `FileSystemError`. -/
  walk : Except String (List FileInfo)
  /-- The third-party `optimize` engine: plugin list and merged options in,
  optimized markup or an error message out. -/
  engine : List BuiltPlugin → SVGOOptions → String → Except String String
  /-- Whether `fs.mkdir(dir, { recursive: true })` succeeds. -/
  mkdirOk : String → Bool
  /-- Whether `fs.writeFile(path, …)` succeeds. -/
  writeOk : String → Bool
  /-- Message of the underlying fs error when a write at this path fails. -/
  writeErrMsg : String → String

/-! ## SVGOptimizer (src/utils/svg-optimizer) -/

namespace SVGOptimizer

/-- `SVGOptimizer.defaultOptions` (the private static baseline). -/
def defaultOptions : SVGOOptions :=
  { multipass := some true
    floatPrecision := some 2
    transformPrecision := some 5
    makePathsRelative := some true
    convertShapeToPath := some true
    mergePaths := some true
    convertTransform := some true
    removeOffCanvasPaths := some true
    removeDimensions := some false
    removeAttrs := some false
    removeElementsByAttr := some false
    addClassesToSVG := some false
    removeTitle := some true
    removeDesc := some true
    removeUselessStrokeAndFill := some true
    removeUnusedNS := some true
    cleanupListOfValues := some true
    sortAttrs := some true
    removeDoctype := some true
    removeXMLProcInst := some true
    removeComments := some true
    removeMetadata := some true
    removeEditorsNSData := some true
    removeEmptyAttrs := some true
    removeHiddenElems := some true
    removeEmptyText := some true
    removeEmptyContainers := some true
    minifyStyles := some true
    convertStyleToAttrs := some true
    convertColors := some true
    convertPathData := some true
    convertEllipseToCircle := some true
    convertUseToSymbol := some false
    convertSymbolToPath := some false
    convertPolygonToPath := some false
    moveGroupAttrsToElems := some true
    moveElemsAttrsToGroup := some true
    collapseGroups := some true
    convertGToUse := some false
    reusePaths := some false }

/-- The object-spread merge of one optional field: a key present in the user
object wins, otherwise the default is kept. -/
def mergeField {α : Type} (user dflt : Option α) : Option α :=
  match user with
  | some v => some v
  | none => dflt

/-- `SVGOptimizer.mergeOptions`: `{...defaultOptions, ...userOptions}`, then
`plugins` is forced to the user's array when given and `[]` otherwise
(`defaultOptions` carries no `plugins` key). -/
def mergeOptions (u : SVGOOptions) : SVGOOptions :=
  { plugins := some (u.plugins.getD [])
    multipass := mergeField u.multipass defaultOptions.multipass
    floatPrecision := mergeField u.floatPrecision defaultOptions.floatPrecision
    transformPrecision := mergeField u.transformPrecision defaultOptions.transformPrecision
    makePathsRelative := mergeField u.makePathsRelative defaultOptions.makePathsRelative
    convertShapeToPath := mergeField u.convertShapeToPath defaultOptions.convertShapeToPath
    mergePaths := mergeField u.mergePaths defaultOptions.mergePaths
    convertTransform := mergeField u.convertTransform defaultOptions.convertTransform
    removeOffCanvasPaths := mergeField u.removeOffCanvasPaths defaultOptions.removeOffCanvasPaths
    removeDimensions := mergeField u.removeDimensions defaultOptions.removeDimensions
    removeAttrs := mergeField u.removeAttrs defaultOptions.removeAttrs
    removeElementsByAttr := mergeField u.removeElementsByAttr defaultOptions.removeElementsByAttr
    addClassesToSVG := mergeField u.addClassesToSVG defaultOptions.addClassesToSVG
    removeTitle := mergeField u.removeTitle defaultOptions.removeTitle
    removeDesc := mergeField u.removeDesc defaultOptions.removeDesc
    removeUselessStrokeAndFill := mergeField u.removeUselessStrokeAndFill defaultOptions.removeUselessStrokeAndFill
    removeUnusedNS := mergeField u.removeUnusedNS defaultOptions.removeUnusedNS
    cleanupListOfValues := mergeField u.cleanupListOfValues defaultOptions.cleanupListOfValues
    sortAttrs := mergeField u.sortAttrs defaultOptions.sortAttrs
    removeDoctype := mergeField u.removeDoctype defaultOptions.removeDoctype
    removeXMLProcInst := mergeField u.removeXMLProcInst defaultOptions.removeXMLProcInst
    removeComments := mergeField u.removeComments defaultOptions.removeComments
    removeMetadata := mergeField u.removeMetadata defaultOptions.removeMetadata
    removeEditorsNSData := mergeField u.removeEditorsNSData defaultOptions.removeEditorsNSData
    removeEmptyAttrs := mergeField u.removeEmptyAttrs defaultOptions.removeEmptyAttrs
    removeHiddenElems := mergeField u.removeHiddenElems defaultOptions.removeHiddenElems
    removeEmptyText := mergeField u.removeEmptyText defaultOptions.removeEmptyText
    removeEmptyContainers := mergeField u.removeEmptyContainers defaultOptions.removeEmptyContainers
    minifyStyles := mergeField u.minifyStyles defaultOptions.minifyStyles
    convertStyleToAttrs := mergeField u.convertStyleToAttrs defaultOptions.convertStyleToAttrs
    convertColors := mergeField u.convertColors defaultOptions.convertColors
    convertPathData := mergeField u.convertPathData defaultOptions.convertPathData
    convertEllipseToCircle := mergeField u.convertEllipseToCircle defaultOptions.convertEllipseToCircle
    convertUseToSymbol := mergeField u.convertUseToSymbol defaultOptions.convertUseToSymbol
    convertSymbolToPath := mergeField u.convertSymbolToPath defaultOptions.convertSymbolToPath
    convertPolygonToPath := mergeField u.convertPolygonToPath defaultOptions.convertPolygonToPath
    moveGroupAttrsToElems := mergeField u.moveGroupAttrsToElems defaultOptions.moveGroupAttrsToElems
    moveElemsAttrsToGroup := mergeField u.moveElemsAttrsToGroup defaultOptions.moveElemsAttrsToGroup
    collapseGroups := mergeField u.collapseGroups defaultOptions.collapseGroups
    convertGToUse := mergeField u.convertGToUse defaultOptions.convertGToUse
    reusePaths := mergeField u.reusePaths defaultOptions.reusePaths }

/-- A toggle written `options.f || false` in the source: truthy check. -/
def orFalse (o : Option Bool) : Bool := o.getD false

/-- A toggle written `options.f !== false` in the source. -/
def neFalse (o : Option Bool) : Bool := decide (o ≠ some false)

/-- The overrides of the `preset-default` entry built by
`SVGOptimizer.buildSVGOPlugins`: `removeViewBox` is the literal `false`;
every other entry mirrors the corresponding option. -/
def presetOverrides (options : SVGOOptions) : PresetOverrides :=
  { removeViewBox := false
    removeDimensions := orFalse options.removeDimensions
    removeAttrs := orFalse options.removeAttrs
    removeElementsByAttr := orFalse options.removeElementsByAttr
    addClassesToSVG := orFalse options.addClassesToSVG
    removeTitle := neFalse options.removeTitle
    removeDesc := neFalse options.removeDesc
    removeUselessStrokeAndFill := neFalse options.removeUselessStrokeAndFill
    removeUnusedNS := neFalse options.removeUnusedNS
    cleanupListOfValues := neFalse options.cleanupListOfValues
    sortAttrs := neFalse options.sortAttrs
    removeDoctype := neFalse options.removeDoctype
    removeXMLProcInst := neFalse options.removeXMLProcInst
    removeComments := neFalse options.removeComments
    removeMetadata := neFalse options.removeMetadata
    removeEditorsNSData := neFalse options.removeEditorsNSData
    removeEmptyAttrs := neFalse options.removeEmptyAttrs
    removeHiddenElems := neFalse options.removeHiddenElems
    removeEmptyText := neFalse options.removeEmptyText
    removeEmptyContainers := neFalse options.removeEmptyContainers
    minifyStyles := neFalse options.minifyStyles
    convertStyleToAttrs := neFalse options.convertStyleToAttrs
    convertColors := neFalse options.convertColors
    convertPathData := neFalse options.convertPathData
    convertEllipseToCircle := neFalse options.convertEllipseToCircle
    convertUseToSymbol := orFalse options.convertUseToSymbol
    convertSymbolToPath := orFalse options.convertSymbolToPath
    convertPolygonToPath := orFalse options.convertPolygonToPath
    moveGroupAttrsToElems := neFalse options.moveGroupAttrsToElems
    moveElemsAttrsToGroup := neFalse options.moveElemsAttrsToGroup
    collapseGroups := neFalse options.collapseGroups
    convertGToUse := orFalse options.convertGToUse
    reusePaths := orFalse options.reusePaths }

/-- `SVGOptimizer.buildSVGOPlugins`: the generated `preset-default` entry
first, then every user-specified plugin entry appended in order (no
deduplication). -/
def buildSVGOPlugins (options : SVGOOptions) : List BuiltPlugin :=
  BuiltPlugin.presetDefault (presetOverrides options)
    :: (match options.plugins with
        | some ps => ps.map BuiltPlugin.custom
        | none => [])

/-- `SVGOptimizer.validateOptions`: each supplied precision must lie in
`[0, 10]`, otherwise an `SVGProcessingError` is thrown. -/
def validateOptions (options : SVGOOptions) : Except IconErr Unit :=
  match options.floatPrecision with
  | some v =>
    if v < 0 || v > 10 then
      .error (.svgProcessing "floatPrecision must be between 0 and 10")
    else
      match options.transformPrecision with
      | some w =>
        if w < 0 || w > 10 then
          .error (.svgProcessing "transformPrecision must be between 0 and 10")
        else .ok ()
      | none => .ok ()
  | none =>
    match options.transformPrecision with
    | some w =>
      if w < 0 || w > 10 then
        .error (.svgProcessing "transformPrecision must be between 0 and 10")
      else .ok ()
    | none => .ok ()

/-- `SVGOptimizer.optimizeSVG`: merge options, build the config and invoke the
engine. Note: the source writes `{ plugins: this.buildSVGOPlugins(merged),
...merged }`, and the spread comes second, so the `plugins` key the engine
receives is `merged.plugins` (the user plugins), not the built list; both are
passed to the oracle here exactly as the config object carries them. An engine
error surfaces as an `SVGProcessingError`. -/
def optimizeSVG (env : Env) (svgContent : String) (options : SVGOOptions) (fileName : String) : Except IconErr String :=
  let merged := mergeOptions options
  let configPlugins := (merged.plugins.getD []).map BuiltPlugin.custom
  match env.engine configPlugins merged svgContent with
  | .ok data => .ok data
  | .error e => .error (.svgProcessing ("SVGO optimization failed: " ++ e))

end SVGOptimizer

/-! ## Regex-replace helpers for the generators

Each global-replace of the source is implemented as a left-to-right scan that
restarts after the replaced span (the semantics of `String.replace(/…/g, …)`).
The scans use an explicit fuel argument (the input length suffices, since every
step consumes at least one character); wrappers supply it. -/

/-- `/\s+/g → ' '`. -/
def collapseWsF : Nat → List Char → List Char
  | 0, l => l
  | _ + 1, [] => []
  | f + 1, c :: cs =>
    if isWs c then ' ' :: collapseWsF f (cs.dropWhile isWs)
    else c :: collapseWsF f cs

def collapseWsL (l : List Char) : List Char := collapseWsF l.length l

/-- `/>\s+</g → '><'`. -/
def gtWsLtF : Nat → List Char → List Char
  | 0, l => l
  | _ + 1, [] => []
  | f + 1, c :: cs =>
    if c = '>' then
      match cs.takeWhile isWs, cs.dropWhile isWs with
      | _ :: _, '<' :: rest2 => '>' :: '<' :: gtWsLtF f rest2
      | _, _ => '>' :: gtWsLtF f cs
    else c :: gtWsLtF f cs

def gtWsLtL (l : List Char) : List Char := gtWsLtF l.length l

/-- `/></g → '>\n<'`. -/
def gtLtF : Nat → List Char → List Char
  | 0, l => l
  | _ + 1, [] => []
  | f + 1, '>' :: '<' :: cs => '>' :: '\n' :: '<' :: gtLtF f cs
  | f + 1, c :: cs => c :: gtLtF f cs

def gtLtL (l : List Char) : List Char := gtLtF l.length l

/-- `/\n\s*\n/g → '\n'`: at a newline whose following whitespace run contains
another newline, the greedy `\s*` ends just before the last newline of the run;
the whole span collapses to one `'\n'` and the scan resumes after that last
newline. -/
def blankLinesF : Nat → List Char → List Char
  | 0, l => l
  | _ + 1, [] => []
  | f + 1, c :: cs =>
    if c = '\n' then
      let run := cs.takeWhile isWs
      if run.contains '\n' then
        '\n' :: blankLinesF f ((run.reverse.takeWhile (fun d => d ≠ '\n')).reverse ++ cs.dropWhile isWs)
      else '\n' :: blankLinesF f cs
    else c :: blankLinesF f cs

def blankLinesL (l : List Char) : List Char := blankLinesF l.length l

/-- Suffix strictly after the first occurrence of `cls`, when there is one. -/
def dropThrough (cls : List Char) : List Char → Option (List Char)
  | [] => none
  | c :: cs =>
    if leadsWith cls (c :: cs) then some (List.drop cls.length (c :: cs))
    else dropThrough cls cs

/-- Removal of every lazily-delimited span `open …shortest… close`, as in
`/<!--[\s\S]*?-->/g`: an opener with no closer after it never matches. -/
def removeDelimF (opn cls : List Char) : Nat → List Char → List Char
  | 0, l => l
  | _ + 1, [] => []
  | f + 1, c :: cs =>
    if leadsWith opn (c :: cs) then
      match dropThrough cls (List.drop opn.length (c :: cs)) with
      | some rest => removeDelimF opn cls f rest
      | none => c :: removeDelimF opn cls f cs
    else c :: removeDelimF opn cls f cs

def removeDelimL (opn cls l : List Char) : List Char := removeDelimF opn cls l.length l

/-- Case-insensitive `dropThrough`. -/
def dropThroughCI (cls : List Char) : List Char → Option (List Char)
  | [] => none
  | c :: cs =>
    if leadsWithCI cls (c :: cs) then some (List.drop cls.length (c :: cs))
    else dropThroughCI cls cs

/-- `/<metadata[^>]*>[\s\S]*?<\/metadata>/gi`: a case-insensitive opening
`<metadata …>` tag (no `>` inside the attribute span) through the lazily first
case-insensitive `</metadata>`. -/
def removeMetadataF : Nat → List Char → List Char
  | 0, l => l
  | _ + 1, [] => []
  | f + 1, c :: cs =>
    if leadsWithCI "<metadata".data (c :: cs) then
      let after := List.drop 9 (c :: cs)
      match after.dropWhile (fun d => d ≠ '>') with
      | '>' :: body =>
        match dropThroughCI "</metadata>".data body with
        | some rest => removeMetadataF f rest
        | none => c :: removeMetadataF f cs
      | _ => c :: removeMetadataF f cs
    else c :: removeMetadataF f cs

def removeMetadataL (l : List Char) : List Char := removeMetadataF l.length l

/-- `/<\?xml[^>]*\?>/g`: from `<?xml`, the run of non-`>` characters must end
in `?` right before the closing `>`. -/
def removeXmlDeclF : Nat → List Char → List Char
  | 0, l => l
  | _ + 1, [] => []
  | f + 1, c :: cs =>
    if leadsWith "<?xml".data (c :: cs) then
      let after := List.drop 5 (c :: cs)
      let span := after.takeWhile (fun d => d ≠ '>')
      match endsWithL ['?'] span, after.dropWhile (fun d => d ≠ '>') with
      | true, '>' :: rest => removeXmlDeclF f rest
      | _, _ => c :: removeXmlDeclF f cs
    else c :: removeXmlDeclF f cs

def removeXmlDeclL (l : List Char) : List Char := removeXmlDeclF l.length l

/-- `/<!DOCTYPE[^>]*>/g`. -/
def removeDoctypeF : Nat → List Char → List Char
  | 0, l => l
  | _ + 1, [] => []
  | f + 1, c :: cs =>
    if leadsWith "<!DOCTYPE".data (c :: cs) then
      match (List.drop 9 (c :: cs)).dropWhile (fun d => d ≠ '>') with
      | '>' :: rest => removeDoctypeF f rest
      | _ => c :: removeDoctypeF f cs
    else c :: removeDoctypeF f cs

def removeDoctypeL (l : List Char) : List Char := removeDoctypeF l.length l

/-- JS `String.split(sep)` for a one-character separator: keeps empty pieces. -/
def splitOnCharL (sep : Char) (l : List Char) : List (List Char) :=
  l.foldr
    (fun c acc =>
      match acc with
      | w :: ws => if c = sep then [] :: w :: ws else (c :: w) :: ws
      | [] => [[c]])
    [[]]

/-- Join pieces with a separator string. -/
def joinSepL (sep : List Char) : List (List Char) → List Char
  | [] => []
  | [w] => w
  | w :: ws => w ++ sep ++ joinSepL sep ws

/-! ## SVGGenerator (src/generators/svg-generator) -/

/-- `path.join(outputDir, fileName)` when `outputDir` is set, `./fileName`
otherwise. -/
def joinPath (outputDir : Option String) (fileName : String) : String :=
  match outputDir with
  | some d => d ++ "/" ++ fileName
  | none => "./" ++ fileName

namespace SVGGenerator

/-- File name of one generated SVG: the user `fileNameFormatter` applied to
the metadata name, used verbatim; only the default branch appends `.svg`. -/
def svgFileName (options : IconifyLoaderOptions) (name : String) : String :=
  match options.fileNameFormatter with
  | some fmt => fmt name
  | none => name ++ ".svg"

/-- The attribute span of the first `<svg…>` tag, per `/<svg([^>]*?)>/i`:
found at the first case-insensitive `<svg`, the lazy group runs to the first
following `>`; no following `>` anywhere means no match at all. -/
def findSvgAttrs : List Char → Option (List Char)
  | [] => none
  | c :: cs =>
    if leadsWithCI "<svg".data (c :: cs) then
      let after := List.drop 4 (c :: cs)
      if after.contains '>' then some (after.takeWhile (fun d => d ≠ '>'))
      else none
    else findSvgAttrs cs

/-- `SVGGenerator.addCustomAttributes`: append each custom prop as
` key="value"` after the existing attributes, then replace the first literal
occurrence of the reconstructed original tag (the source rebuilds it with a
lowercase `<svg`). The source skips `undefined`/`null` prop values; the string
model has none. -/
def addCustomAttributes (svgContent : List Char) (customProps : List (String × String)) : List Char :=
  match findSvgAttrs svgContent with
  | none => svgContent
  | some existingAttributes =>
    let newAttributes := customProps.foldl
      (fun acc kv => acc ++ (' ' :: (kv.1.data ++ ('=' :: '"' :: (kv.2.data ++ ['"'])))))
      existingAttributes
    replaceFirstL ("<svg".data ++ existingAttributes ++ ['>'])
      ("<svg".data ++ newAttributes ++ ['>']) svgContent

/-- `SVGGenerator.formatSVGContent`: collapse whitespace, fuse `>\s+<`, break
`><` onto lines, squash blank lines, trim. -/
def formatSVGContent (content : List Char) : List Char :=
  trimL (blankLinesL (gtLtL (gtWsLtL (collapseWsL content))))

/-- `SVGGenerator.prepareSVGContent`: custom attributes when `svgProps` is
given; comments are stripped unless `svgoOptions.removeComments` is literally
`false` (same for `<metadata>` elements); then formatting. -/
def prepareSVGContent (svg : ProcessedSVG) (options : IconifyLoaderOptions) : String :=
  let c0 := svg.content.data
  let c1 := match options.svgProps with
    | some props => addCustomAttributes c0 props
    | none => c0
  let rcOff := match options.svgoOptions with
    | some so => so.removeComments == some false
    | none => false
  let c2 := if rcOff then c1 else removeDelimL "<!--".data "-->".data c1
  let rmOff := match options.svgoOptions with
    | some so => so.removeMetadata == some false
    | none => false
  let c3 := if rmOff then c2 else removeMetadataL c2
  (formatSVGContent c3).asString

/-- `SVGGenerator.generateSVGFile` without the write: the path the file goes
to and the content written there. -/
def generateSVGFile (svg : ProcessedSVG) (options : IconifyLoaderOptions) : String × String :=
  (joinPath options.outputDir (svgFileName options svg.metadata.name),
   prepareSVGContent svg options)

/-- `SVGGenerator.getVariableName`: the formatter verbatim, or the default
transform (non-alphanumerics to `_`, lowercase, leading `_`s stripped, one
trailing `_` stripped). -/
def getVariableName (originalName : String) (options : IconifyLoaderOptions) : String :=
  match options.fileNameFormatter with
  | some fmt => fmt originalName
  | none =>
    let l := originalName.data.map (fun c => if c.isAlphanum then c.toLower else '_')
    let l := l.dropWhile (fun c => c = '_')
    let l := if endsWithL ['_'] l then l.dropLast else l
    l.asString

/-- Escaping of an icon's content for the index file string constant. -/
def escapeForIndex (l : List Char) : List Char :=
  l.foldr
    (fun c acc =>
      if c = '\\' then '\\' :: '\\' :: acc
      else if c = '\'' then '\\' :: '\'' :: acc
      else if c = '"' then '\\' :: '"' :: acc
      else if c = '\n' then '\\' :: 'n' :: acc
      else c :: acc)
    []

/-- Path of the SVG index file. -/
def indexPath (options : IconifyLoaderOptions) : String :=
  joinPath options.outputDir ("index." ++ (if truthy options.typescript then "ts" else "js"))

/-- Content of the SVG index file: one exported string constant per icon,
plus an `SVGIcons` interface when TypeScript output is on. -/
def indexContent (svgs : List ProcessedSVG) (options : IconifyLoaderOptions) : String :=
  let xs := svgs.map (fun svg =>
    let variableName := getVariableName svg.metadata.name options
    let escaped := (escapeForIndex (prepareSVGContent svg options).data).asString
    ("export const " ++ variableName ++ " = \x27" ++ escaped ++ "\x27;",
     "  " ++ variableName ++ ": string;"))
  let base := joinSepL "\n\n".data (xs.map (fun p => p.1.data))
  let withTypes :=
    if truthy options.typescript && xs ≠ [] then
      base ++ ("\n\nexport interface SVGIcons \x7b\n".data
        ++ joinSepL "\n".data (xs.map (fun p => p.2.data)) ++ "\n\x7d\n".data)
    else base
  withTypes.asString

/-- The per-item loop of `generateSVGs`: for each icon, a successful write
appends the path to `files` (and the write log); a failed write appends the
item's error message to `errors` and the loop continues. Returns
`(files, errors, writes)`. -/
def svgItems (env : Env) (options : IconifyLoaderOptions) :
    List ProcessedSVG → List String × List String × List String
  | [] => ([], [], [])
  | svg :: rest =>
    let p := (generateSVGFile svg options).1
    let (fs, es, ws) := svgItems env options rest
    if env.writeOk p then (p :: fs, es, p :: ws)
    else (fs, ("Failed to generate SVG for " ++ svg.metadata.name ++ ": " ++ env.writeErrMsg p) :: es, ws)

/-- The body of `generateSVGs` after the output directory exists: items, then
the optional index file, then `success := errors.length === 0`. -/
def svgRun (env : Env) (options : IconifyLoaderOptions) (svgs : List ProcessedSVG) :
    GenerationResult × List String :=
  let (fs, es, ws) := svgItems env options svgs
  let (fs2, es2, ws2) :=
    if truthy options.generateIndex then
      let p := indexPath options
      if env.writeOk p then (fs ++ [p], es, ws ++ [p])
      else (fs, es ++ ["Failed to generate SVG index file: " ++ env.writeErrMsg p], ws)
    else (fs, es, ws)
  ({ success := es2.isEmpty, files := fs2, errors := es2, warnings := [] }, ws2)

/-- `SVGGenerator.generateSVGs`: a failure creating the output directory is
caught by the outer try and recorded as the single error of a failed result;
otherwise the run proceeds and `success` is recomputed from `errors` at the
end. -/
def generateSVGs (env : Env) (svgs : List ProcessedSVG) (options : IconifyLoaderOptions) :
    GenerationResult × List String :=
  match options.outputDir with
  | some d =>
    if env.mkdirOk d then svgRun env options svgs
    else
      ({ success := false, files := [],
         errors := ["SVG generation failed: Failed to create output directory: " ++ d],
         warnings := [] }, [])
  | none => svgRun env options svgs

end SVGGenerator

/-! ## ReactGenerator (src/generators/react-generator) -/

/-- `ReactComponentTemplate`. -/
structure ReactComponentTemplate where
  componentName : String
  props : List String
  svgContent : String
  typescript : Bool

namespace ReactGenerator

/-- The static default props of the generator. -/
def defaultProps : List (String × String) :=
  [("width", "1em"), ("height", "1em"), ("fill", "currentColor"), ("aria-hidden", "true")]

/-- Object-spread update of a key/value list: an existing key keeps its
position and takes the new value, a new key is appended. -/
def upsert (l : List (String × String)) (k v : String) : List (String × String) :=
  if l.any (fun p => p.1 == k) then
    l.map (fun p => if p.1 == k then (k, v) else p)
  else l ++ [(k, v)]

def upsertOpt (l : List (String × String)) (k : String) : Option String → List (String × String)
  | some v => upsert l k v
  | none => l

/-- `ReactGenerator.generateProps`: defaults, then user `svgProps`, then the
metadata attributes, rendered as `key="value"` strings (all values are
strings in this model). -/
def generateProps (svg : ProcessedSVG) (options : IconifyLoaderOptions) : List String :=
  let merged := (options.svgProps.getD []).foldl (fun acc kv => upsert acc kv.1 kv.2) defaultProps
  let merged := upsertOpt merged "width" svg.metadata.width
  let merged := upsertOpt merged "height" svg.metadata.height
  let merged := upsertOpt merged "viewBox" svg.metadata.viewBox
  let merged := upsertOpt merged "fill" svg.metadata.fill
  let merged := upsertOpt merged "stroke" svg.metadata.stroke
  let merged := upsertOpt merged "strokeWidth" svg.metadata.strokeWidth
  let merged := upsertOpt merged "className" svg.metadata.className
  merged.map (fun kv => kv.1 ++ "=\"" ++ kv.2 ++ "\"")

/-- `ReactGenerator.prepareSVGContent`: strip the XML declaration, DOCTYPE and
comments, collapse whitespace, fuse `>\s+<`, then re-indent the (single
remaining) line for JSX: line 0 is trimmed, later nonempty lines get six
spaces. -/
def prepareSVGContent (svg : ProcessedSVG) : String :=
  let c := svg.content.data
  let c := removeXmlDeclL c
  let c := removeDoctypeL c
  let c := removeDelimL "<!--".data "-->".data c
  let c := collapseWsL c
  let c := gtWsLtL c
  let lines := splitOnCharL '\n' c
  let indented := lines.enum.map (fun p =>
    let trimmed := trimL p.2
    if p.1 = 0 then trimmed
    else if trimmed ≠ [] then "      ".data ++ trimmed
    else [])
  (joinSepL ['\n'] indented).asString

/-- `ReactGenerator.getComponentName`: the user namer verbatim, or the default
PascalCase transform (non-alphanumerics to spaces, each word capitalized with
the rest lowercased, joined, first char uppercased). -/
def getComponentName (originalName : String) (options : IconifyLoaderOptions) : String :=
  match options.reactComponentName with
  | some f => f originalName
  | none =>
    let spaced := originalName.data.map (fun c => if c.isAlphanum then c else ' ')
    let words := splitOnCharL ' ' spaced
    let joined := (words.map (fun w =>
      match w with
      | [] => []
      | c :: rest => c.toUpper :: rest.map Char.toLower)).flatten
    (match joined with
     | [] => []
     | c :: rest => c.toUpper :: rest).asString

/-- `ReactGenerator.createComponentTemplate`. -/
def createComponentTemplate (svg : ProcessedSVG) (componentName : String)
    (options : IconifyLoaderOptions) : ReactComponentTemplate :=
  { componentName := componentName
    props := generateProps svg options
    svgContent := prepareSVGContent svg
    typescript := truthy options.typescript }

/-- `ReactGenerator.renderComponent`: the literal component templates of the
source. Only `componentName`, `svgContent` and `typescript` are read; the
`props` field of the template is ignored, and the wrapper always carries
`viewBox="0 0 24 24"` together with the `size`/`fill` defaults and the props
spread. -/
def renderComponent (template : ReactComponentTemplate) : String :=
  if template.typescript then
    "import React from \x27react\x27;\n\nexport interface "
      ++ template.componentName
      ++ "Props extends React.SVGProps<SVGSVGElement> \x7b\n  size?: number | string;\n\x7d\n\nconst "
      ++ template.componentName
      ++ ": React.FC<"
      ++ template.componentName
      ++ "Props> = (\x7b\n  size = \x271em\x27,\n  fill = \x27currentColor\x27,\n  ...props\n\x7d) => \x7b\n  return (\n    <svg\n      width=\x7bsize\x7d\n      height=\x7bsize\x7d\n      fill=\x7bfill\x7d\n      viewBox=\"0 0 24 24\"\n      \x7b...props\x7d\n    >\n"
      ++ template.svgContent
      ++ "\n    </svg>\n  );\n\x7d;\n\nexport default "
      ++ template.componentName
      ++ ";\n"
  else
    "import React from \x27react\x27;\n\nconst "
      ++ template.componentName
      ++ " = (\x7b\n  size = \x271em\x27,\n  fill = \x27currentColor\x27,\n  ...props\n\x7d) => \x7b\n  return (\n    <svg\n      width=\x7bsize\x7d\n      height=\x7bsize\x7d\n      fill=\x7bfill\x7d\n      viewBox=\"0 0 24 24\"\n      \x7b...props\x7d\n    >\n"
      ++ template.svgContent
      ++ "\n    </svg>\n  );\n\x7d;\n\nexport default "
      ++ template.componentName
      ++ ";\n"

/-- `ReactGenerator.generateComponentFile` without the write: target path and
content. The file name runs the `fileNameFormatter` on the component name, or
defaults to `Name.tsx`/`Name.jsx`. -/
def generateComponentFile (svg : ProcessedSVG) (options : IconifyLoaderOptions) : String × String :=
  let componentName := getComponentName svg.metadata.name options
  let fileName := match options.fileNameFormatter with
    | some f => f componentName
    | none => componentName ++ (if truthy options.typescript then ".tsx" else ".jsx")
  (joinPath options.outputDir fileName,
   renderComponent (createComponentTemplate svg componentName options))

/-- Path of the React index file. -/
def indexPath (options : IconifyLoaderOptions) : String :=
  joinPath options.outputDir ("index." ++ (if truthy options.typescript then "ts" else "js"))

/-- Content of the React index file. -/
def indexContent (svgs : List ProcessedSVG) (options : IconifyLoaderOptions) : String :=
  let xs := svgs.map (fun svg =>
    let componentName := getComponentName svg.metadata.name options
    ("export \x7b default as " ++ componentName ++ " \x7d from \x27./" ++ componentName ++ "\x27;",
     "  " ++ componentName ++ ": typeof " ++ componentName ++ ";"))
  let base := joinSepL ['\n'] (xs.map (fun p => p.1.data))
  let withTypes :=
    if truthy options.typescript && xs ≠ [] then
      base ++ ("\n\nexport interface IconComponents \x7b\n".data
        ++ joinSepL ['\n'] (xs.map (fun p => p.2.data)) ++ "\n\x7d\n".data)
    else base
  withTypes.asString

/-- The per-item loop of `generateComponents`. -/
def reactItems (env : Env) (options : IconifyLoaderOptions) :
    List ProcessedSVG → List String × List String × List String
  | [] => ([], [], [])
  | svg :: rest =>
    let p := (generateComponentFile svg options).1
    let (fs, es, ws) := reactItems env options rest
    if env.writeOk p then (p :: fs, es, p :: ws)
    else (fs, ("Failed to generate component for " ++ svg.metadata.name ++ ": " ++ env.writeErrMsg p) :: es, ws)

/-- Body of `generateComponents` once the output directory exists. -/
def reactRun (env : Env) (options : IconifyLoaderOptions) (svgs : List ProcessedSVG) :
    GenerationResult × List String :=
  let (fs, es, ws) := reactItems env options svgs
  let (fs2, es2, ws2) :=
    if truthy options.generateIndex then
      let p := indexPath options
      if env.writeOk p then (fs ++ [p], es, ws ++ [p])
      else (fs, es ++ ["Failed to generate index file: " ++ env.writeErrMsg p], ws)
    else (fs, es, ws)
  ({ success := es2.isEmpty, files := fs2, errors := es2, warnings := [] }, ws2)

/-- `ReactGenerator.generateComponents`. -/
def generateComponents (env : Env) (svgs : List ProcessedSVG) (options : IconifyLoaderOptions) :
    GenerationResult × List String :=
  match options.outputDir with
  | some d =>
    if env.mkdirOk d then reactRun env options svgs
    else
      ({ success := false, files := [],
         errors := ["Generation failed: Failed to create output directory: " ++ d],
         warnings := [] }, [])
  | none => reactRun env options svgs

end ReactGenerator

/-! ## JSONGenerator (src/generators/json-generator) -/

namespace JSONGenerator

/-- One entry of the aggregate `icons` map (fields with `none` correspond to
keys `JSON.stringify` drops). -/
structure JSONIconEntry where
  name : String
  originalName : String
  path : String
  size : Nat
  width : Option String := none
  height : Option String := none
  viewBox : Option String := none
  fill : Option String := none
  stroke : Option String := none
  strokeWidth : Option String := none
  className : Option String := none
  content : Option String := none
  deriving Repr, DecidableEq

/-- `JSONGenerator.createJSONOutput`'s `icons` map: keyed by the formatted
name; `content` only in verbose mode. -/
def createJSONIcons (svgs : List ProcessedSVG) (options : IconifyLoaderOptions) :
    List (String × JSONIconEntry) :=
  svgs.map (fun svg =>
    (match options.fileNameFormatter with
     | some f => f svg.metadata.name
     | none => svg.metadata.name,
     { name := svg.metadata.name
       originalName := svg.metadata.originalName
       path := svg.metadata.path
       size := svg.metadata.size
       width := svg.metadata.width
       height := svg.metadata.height
       viewBox := svg.metadata.viewBox
       fill := svg.metadata.fill
       stroke := svg.metadata.stroke
       strokeWidth := svg.metadata.strokeWidth
       className := svg.metadata.className
       content := if truthy options.verbose then some svg.content else none }))

/-- File name of the aggregate JSON file: note the `.json` suffix is appended
after running the formatter, unlike the SVG generator. -/
def jsonMainFileName (options : IconifyLoaderOptions) : String :=
  match options.fileNameFormatter with
  | some f => f "icons" ++ ".json"
  | none => "icons.json"

/-- File name of one per-icon JSON file. -/
def jsonItemFileName (options : IconifyLoaderOptions) (name : String) : String :=
  (match options.fileNameFormatter with
   | some f => f name
   | none => name) ++ ".json"

/-- The per-icon loop of `generateIndividualJSONFiles`: a failed write throws
a `FileSystemError`, aborting the loop at that icon; files already written
stay on disk but the collected file list is discarded by the caller. Returns
`(files, writes, error?)`. -/
def jsonIndividuals (env : Env) (options : IconifyLoaderOptions) :
    List ProcessedSVG → List String × List String × Option String
  | [] => ([], [], none)
  | svg :: rest =>
    let p := joinPath options.outputDir (jsonItemFileName options svg.metadata.name)
    if env.writeOk p then
      let (fs, ws, e) := jsonIndividuals env options rest
      (p :: fs, p :: ws, e)
    else ([], [], some ("Failed to generate individual JSON file for " ++ svg.metadata.name))

/-- Body of `generateJSON` once the output directory exists: the aggregate
file (its write failure is caught and recorded), then, when `generateIndex`
is on, the per-icon files as one catch-all phase. -/
def jsonRun (env : Env) (options : IconifyLoaderOptions) (svgs : List ProcessedSVG) :
    GenerationResult × List String :=
  let p := joinPath options.outputDir (jsonMainFileName options)
  let (fs, es, ws) :=
    if env.writeOk p then ([p], ([] : List String), [p])
    else ([], ["Failed to generate JSON file: " ++ env.writeErrMsg p], [])
  let (fs2, es2, ws2) :=
    if truthy options.generateIndex then
      let (ifs, iws, e) := jsonIndividuals env options svgs
      match e with
      | none => (fs ++ ifs, es, ws ++ iws)
      | some m => (fs, es ++ ["Failed to generate individual JSON files: " ++ m], ws ++ iws)
    else (fs, es, ws)
  ({ success := es2.isEmpty, files := fs2, errors := es2, warnings := [] }, ws2)

/-- `JSONGenerator.generateJSON`. -/
def generateJSON (env : Env) (svgs : List ProcessedSVG) (options : IconifyLoaderOptions) :
    GenerationResult × List String :=
  match options.outputDir with
  | some d =>
    if env.mkdirOk d then jsonRun env options svgs
    else
      ({ success := false, files := [],
         errors := ["JSON generation failed: Failed to create output directory: " ++ d],
         warnings := [] }, [])
  | none => jsonRun env options svgs

end JSONGenerator

/-! ## IconifyLoader (src/core/iconify-loader) -/

namespace IconifyLoader

/-- A JS-falsy optional string: absent or empty. -/
def falsyStr : Option String → Bool
  | none => true
  | some s => s == ""

/-- `IconifyLoader.validateOptions` (run by the constructor): required
`inputDir`, required `format`, `format` in the three literals, then the SVGO
numeric-bounds check when `svgoOptions` is present. -/
def validateOptions (options : IconifyLoaderOptions) : Except IconErr Unit :=
  if falsyStr options.inputDir then
    .error (.validation "Input directory is required")
  else if falsyStr options.format then
    .error (.validation "Output format is required")
  else if !(["svg", "react", "json"].contains (options.format.getD "")) then
    .error (.validation "Invalid format. Must be one of: svg, react, json")
  else
    match options.svgoOptions with
    | some so => SVGOptimizer.validateOptions so
    | none => .ok ()

/-- `IconifyLoader.readSVGs`: the walker result; an empty list is promoted to
a `ValidationError`, a walker failure is wrapped in a `FileSystemError`. -/
def readSVGs (env : Env) (options : IconifyLoaderOptions) : Except IconErr (List FileInfo) :=
  match env.walk with
  | .error e => .error (.filesystem ("Failed to read SVG files: " ++ e))
  | .ok files =>
    if files.isEmpty then
      .error (.validation ("No SVG files found in directory: " ++ interp options.inputDir))
    else .ok files

/-- The metadata assembled for one file in `processSVGs`. -/
def metadataOf (file : FileInfo) : SVGMetadata :=
  let attributes := FileReader.extractSVGAttributes file.content
  { name := file.name
    originalName := file.name
    path := file.path
    size := file.content.utf8ByteSize
    width := attributes.width
    height := attributes.height
    viewBox := attributes.viewBox
    fill := attributes.fill
    stroke := attributes.stroke }

/-- The non-throwing tail of one `processSVGs` iteration: when optimization is
requested, an optimizer failure is swallowed (content and `optimized` flag
untouched); otherwise the raw content passes through with `optimized = false`. -/
def processedOf (env : Env) (options : IconifyLoaderOptions) (file : FileInfo) : ProcessedSVG :=
  if truthy options.optimize then
    match SVGOptimizer.optimizeSVG env file.content (options.svgoOptions.getD {}) file.name with
    | .ok content => { metadata := metadataOf file, content := content, optimized := true }
    | .error _ => { metadata := metadataOf file, content := file.content, optimized := false }
  else { metadata := metadataOf file, content := file.content, optimized := false }

/-- `IconifyLoader.processSVGs`: content validation failure propagates and
aborts the batch; optimizer failure is caught per file. -/
def processSVGs (env : Env) (options : IconifyLoaderOptions) :
    List FileInfo → Except IconErr (List ProcessedSVG)
  | [] => .ok []
  | file :: rest =>
    match FileReader.validateSVGContent file.content file.name with
    | .error e => .error e
    | .ok _ =>
      match processSVGs env options rest with
      | .error e => .error e
      | .ok l => .ok (processedOf env options file :: l)

/-- `IconifyLoader.generateOutput`: dispatch on `format`; anything else is a
`ValidationError`. -/
def generateOutput (env : Env) (options : IconifyLoaderOptions) (svgs : List ProcessedSVG) :
    Except IconErr (GenerationResult × List String) :=
  match options.format with
  | some "react" => .ok (ReactGenerator.generateComponents env svgs options)
  | some "svg" => .ok (SVGGenerator.generateSVGs env svgs options)
  | some "json" => .ok (JSONGenerator.generateJSON env svgs options)
  | f => .error (.validation ("Unsupported output format: " ++ interp f))

/-- `IconifyLoader.process`: read, transform, render — and the enclosing
`catch` rethrows ANY error as an `SVGProcessingError` wrapping the original
message, including the `ValidationError` of an empty directory. -/
def process (env : Env) (options : IconifyLoaderOptions) :
    Except IconErr GenerationResult × List String :=
  match readSVGs env options with
  | .error e => (.error (.svgProcessing ("IconifyLoader process failed: " ++ e.message)), [])
  | .ok files =>
    match processSVGs env options files with
    | .error e => (.error (.svgProcessing ("IconifyLoader process failed: " ++ e.message)), [])
    | .ok svgs =>
      match generateOutput env options svgs with
      | .error e => (.error (.svgProcessing ("IconifyLoader process failed: " ++ e.message)), [])
      | .ok (result, writes) => (.ok result, writes)

/-- `IconifyLoader.load`: construct (which validates) then `process`; a
constructor `ValidationError`/`SVGProcessingError` escapes unwrapped since it
is thrown before `process`'s try block. -/
def load (env : Env) (options : IconifyLoaderOptions) :
    Except IconErr GenerationResult × List String :=
  match validateOptions options with
  | .error e => (.error e, [])
  | .ok _ => process env options

/-- `IconifyLoader.getDefaultOptions`: declared defaults — never merged into
the options `load`/`process` actually use. -/
def getDefaultOptions : IconifyLoaderOptions :=
  { optimize := some true
    generateIndex := some true
    typescript := some true
    includeSubdirs := some true
    ignorePatterns := some ["node_modules", ".git", "dist", "build"]
    verbose := some false }

/-- `IconifyLoader.mergeOptions`: `{...defaults, ...userOptions}` — defined,
exported, and unused by `load`/`process`. -/
def mergeOptions (userOptions : IconifyLoaderOptions) : IconifyLoaderOptions :=
  { inputDir := SVGOptimizer.mergeField userOptions.inputDir getDefaultOptions.inputDir
    outputDir := SVGOptimizer.mergeField userOptions.outputDir getDefaultOptions.outputDir
    format := SVGOptimizer.mergeField userOptions.format getDefaultOptions.format
    svgoOptions := SVGOptimizer.mergeField userOptions.svgoOptions getDefaultOptions.svgoOptions
    optimize := SVGOptimizer.mergeField userOptions.optimize getDefaultOptions.optimize
    generateIndex := SVGOptimizer.mergeField userOptions.generateIndex getDefaultOptions.generateIndex
    typescript := SVGOptimizer.mergeField userOptions.typescript getDefaultOptions.typescript
    reactComponentName := SVGOptimizer.mergeField userOptions.reactComponentName getDefaultOptions.reactComponentName
    svgProps := SVGOptimizer.mergeField userOptions.svgProps getDefaultOptions.svgProps
    fileNameFormatter := SVGOptimizer.mergeField userOptions.fileNameFormatter getDefaultOptions.fileNameFormatter
    includeSubdirs := SVGOptimizer.mergeField userOptions.includeSubdirs getDefaultOptions.includeSubdirs
    ignorePatterns := SVGOptimizer.mergeField userOptions.ignorePatterns getDefaultOptions.ignorePatterns
    verbose := SVGOptimizer.mergeField userOptions.verbose getDefaultOptions.verbose }

end IconifyLoader

/-! ## Shared helper lemmas and concrete fixtures -/

/-- The output-directory phase succeeds (no dir, or `mkdir` succeeds). -/
def dirOk (env : Env) (options : IconifyLoaderOptions) : Prop :=
  match options.outputDir with
  | some d => env.mkdirOk d = true
  | none => True

/-- An all-succeeding environment with an identity engine and empty walk. -/
def envAllOk : Env :=
  { walk := .ok []
    engine := fun _ _ c => .ok c
    mkdirOk := fun _ => true
    writeOk := fun _ => true
    writeErrMsg := fun _ => "EIO: i/o error" }

/-- Is the final result a `ValidationError`? -/
def isValidationResult : Except IconErr GenerationResult → Bool
  | .error (.validation _) => true
  | _ => false


/-- A valid minimal configuration pointed at a directory the walker finds
empty. -/
def optsEmptyDir : IconifyLoaderOptions :=
  { inputDir := some "./icons", format := some "svg" }

/-- The `arrow.svg` icon of the spec's scenarios, already processed raw. -/
def arrowIcon : ProcessedSVG :=
  { metadata :=
      { name := "arrow", originalName := "arrow", path := "./icons/arrow.svg", size := 86 }
    content := "<svg viewBox=\"0 0 24 24\" width=\"16\" height=\"16\"><path d=\"M0 0h24v24H0z\"/></svg>" }

/-- The C3 scenario configuration: format `svg`, a `fileNamer` returning
`icon-<lowercased-name>`, and two custom `svgProps` entries. -/
def optsIconNamer : IconifyLoaderOptions :=
  { inputDir := some "./icons", format := some "svg",
    fileNameFormatter := some (fun n => "icon-" ++ (n.data.map Char.toLower).asString),
    svgProps := some [("class", "icon"), ("stroke", "none")] }

/-- The arrow icon with different extracted metadata (a 48-grid viewBox) but
identical raw content. -/
def arrowIconAlt : ProcessedSVG :=
  { metadata :=
      { name := "arrow", originalName := "arrow", path := "./icons/arrow.svg", size := 86,
        viewBox := some "0 0 48 48", width := some "48" }
    content := "<svg viewBox=\"0 0 24 24\" width=\"16\" height=\"16\"><path d=\"M0 0h24v24H0z\"/></svg>" }

/-- An environment whose engine always fails. -/
def envEngineFail : Env :=
  { walk := .ok []
    engine := fun _ _ _ => .error "Invalid or unexpected token"
    mkdirOk := fun _ => true
    writeOk := fun _ => true
    writeErrMsg := fun _ => "EIO: i/o error" }

/-- The arrow input file as the walker returns it. -/
def arrowFile : FileInfo :=
  { path := "./icons/arrow.svg", name := "arrow", extension := ".svg",
    content := "<svg viewBox=\"0 0 24 24\" width=\"16\" height=\"16\"><path d=\"M0 0h24v24H0z\"/></svg>" }

/-- Environment for the C1 counterexample: only `./a.json` fails to write. -/
def envFailA : Env :=
  { walk := .ok []
    engine := fun _ _ c => .ok c
    mkdirOk := fun _ => true
    writeOk := fun p => !(p == "./a.json")
    writeErrMsg := fun _ => "EACCES: permission denied" }

/-- Two minimal processed icons named `a` and `b`. -/
def iconA : ProcessedSVG :=
  { metadata := { name := "a", originalName := "a", path := "./icons/a.svg", size := 7 }
    content := "<svg/>" }

def iconB : ProcessedSVG :=
  { metadata := { name := "b", originalName := "b", path := "./icons/b.svg", size := 7 }
    content := "<svg/>" }

theorem neFalse_mergeField (x : Option Bool) (d : Bool) :
    SVGOptimizer.neFalse (SVGOptimizer.mergeField x (some d)) = x.getD d := by
  cases x with
  | none => cases d <;> rfl
  | some b => cases b <;> rfl

theorem orFalse_mergeField (x : Option Bool) (d : Bool) :
    SVGOptimizer.orFalse (SVGOptimizer.mergeField x (some d)) = x.getD d := by
  cases x with
  | none => cases d <;> rfl
  | some b => cases b <;> rfl

/-- C5: for every user-supplied `SVGOOptions`, the plugin list built by
`SVGOptimizer.buildSVGOPlugins` over the merged options is exactly one
`preset-default` entry first — whose overrides force `removeViewBox := false`
regardless of user input and reflect the merged boolean toggles (user value
when supplied, baseline default otherwise) — followed by the user plugin
entries in order, with no deduplication. -/
theorem C5_preset_first_then_user_plugins (u : SVGOOptions) :
    SVGOptimizer.buildSVGOPlugins (SVGOptimizer.mergeOptions u) =
      BuiltPlugin.presetDefault (SVGOptimizer.presetOverrides (SVGOptimizer.mergeOptions u))
        :: (u.plugins.getD []).map BuiltPlugin.custom
    ∧ (SVGOptimizer.presetOverrides (SVGOptimizer.mergeOptions u)).removeViewBox = false
    ∧ (SVGOptimizer.presetOverrides (SVGOptimizer.mergeOptions u)).removeDimensions = u.removeDimensions.getD false
    ∧ (SVGOptimizer.presetOverrides (SVGOptimizer.mergeOptions u)).removeAttrs = u.removeAttrs.getD false
    ∧ (SVGOptimizer.presetOverrides (SVGOptimizer.mergeOptions u)).removeTitle = u.removeTitle.getD true
    ∧ (SVGOptimizer.presetOverrides (SVGOptimizer.mergeOptions u)).removeComments = u.removeComments.getD true
    ∧ (SVGOptimizer.presetOverrides (SVGOptimizer.mergeOptions u)).sortAttrs = u.sortAttrs.getD true
    ∧ (SVGOptimizer.presetOverrides (SVGOptimizer.mergeOptions u)).convertUseToSymbol = u.convertUseToSymbol.getD false
    ∧ (SVGOptimizer.presetOverrides (SVGOptimizer.mergeOptions u)).collapseGroups = u.collapseGroups.getD true
    ∧ (SVGOptimizer.presetOverrides (SVGOptimizer.mergeOptions u)).reusePaths = u.reusePaths.getD false := by
  refine ⟨?_, rfl, ?_, ?_, ?_, ?_, ?_, ?_, ?_, ?_⟩ <;>
    simp [SVGOptimizer.buildSVGOPlugins, SVGOptimizer.mergeOptions, SVGOptimizer.presetOverrides,
      SVGOptimizer.defaultOptions, neFalse_mergeField, orFalse_mergeField]

/-- A format that passes the membership check is a non-falsy string. -/
theorem formatOk_not_falsy (f : Option String)
    (h : (["svg", "react", "json"].contains (f.getD "")) = true) :
    IconifyLoader.falsyStr f = false := by
  cases f with
  | none => simp [List.contains] at h
  | some s =>
    simp only [Option.getD, List.contains] at h
    rcases (by simpa using h) with h1 | h1 | h1 <;>
      simp [IconifyLoader.falsyStr, h1]

/-- `load` with failing validation: the constructor error escapes unwrapped
and nothing is written. -/
theorem load_of_validate_error (env : Env) (o : IconifyLoaderOptions) (e : IconErr)
    (h : IconifyLoader.validateOptions o = .error e) :
    IconifyLoader.load env o = (.error e, []) := by
  unfold IconifyLoader.load
  rw [h]

/-- C6: a configuration missing `inputDir`, missing `format`, or whose format
is not one of `svg`, `react`, `json` makes the run fail with a
`ValidationError` from option validation, with zero files written. -/
theorem C6_invalid_config_fails_before_write (env : Env) (o : IconifyLoaderOptions)
    (h : IconifyLoader.falsyStr o.inputDir = true
      ∨ IconifyLoader.falsyStr o.format = true
      ∨ (["svg", "react", "json"].contains (o.format.getD "")) = false) :
    (∃ m, (IconifyLoader.load env o).1 = .error (.validation m))
    ∧ (IconifyLoader.load env o).2 = [] := by
  have hval : ∃ m, IconifyLoader.validateOptions o = .error (.validation m) := by
    cases hin : IconifyLoader.falsyStr o.inputDir with
    | true =>
      exact ⟨"Input directory is required", by unfold IconifyLoader.validateOptions; rw [hin]; rfl⟩
    | false =>
      cases hfmt : IconifyLoader.falsyStr o.format with
      | true =>
        exact ⟨"Output format is required", by unfold IconifyLoader.validateOptions; rw [hin, hfmt]; rfl⟩
      | false =>
        have h3 : (["svg", "react", "json"].contains (o.format.getD "")) = false := by
          rcases h with h | h | h
          · rw [hin] at h; exact absurd h (by simp)
          · rw [hfmt] at h; exact absurd h (by simp)
          · exact h
        exact ⟨"Invalid format. Must be one of: svg, react, json",
          by unfold IconifyLoader.validateOptions; rw [hin, hfmt, h3]; rfl⟩
  obtain ⟨m, hm⟩ := hval
  rw [load_of_validate_error env o _ hm]
  exact ⟨⟨m, rfl⟩, rfl⟩

/-- C6 witness: a configuration with no `inputDir`. -/
theorem C6_invalid_config_fails_before_write_witness :
    (∃ m, (IconifyLoader.load envAllOk { format := some "svg" }).1 = .error (.validation m))
    ∧ (IconifyLoader.load envAllOk { format := some "svg" }).2 = [] :=
  C6_invalid_config_fails_before_write envAllOk { format := some "svg" } (Or.inl rfl)

/-- C7: a supplied `floatPrecision` or `transformPrecision` outside `[0, 10]`
raises an `SVGProcessingError` during option validation at loader
construction, aborting the whole run with nothing read or written; values
inside `[0, 10]`, the endpoints included, pass validation. -/
theorem C7_precision_bounds_validated_eagerly :
    (∀ (env : Env) (o : IconifyLoaderOptions) (so : SVGOOptions) (v : Int),
      o.svgoOptions = some so →
      IconifyLoader.falsyStr o.inputDir = false →
      (["svg", "react", "json"].contains (o.format.getD "")) = true →
      so.floatPrecision = some v → (v < 0 ∨ 10 < v) →
      IconifyLoader.load env o =
        (.error (.svgProcessing "floatPrecision must be between 0 and 10"), []))
    ∧ (∀ (env : Env) (o : IconifyLoaderOptions) (so : SVGOOptions) (w : Int),
      o.svgoOptions = some so →
      IconifyLoader.falsyStr o.inputDir = false →
      (["svg", "react", "json"].contains (o.format.getD "")) = true →
      (so.floatPrecision = none ∨ ∃ v, so.floatPrecision = some v ∧ 0 ≤ v ∧ v ≤ 10) →
      so.transformPrecision = some w → (w < 0 ∨ 10 < w) →
      IconifyLoader.load env o =
        (.error (.svgProcessing "transformPrecision must be between 0 and 10"), []))
    ∧ (∀ so : SVGOOptions,
      (∀ v, so.floatPrecision = some v → 0 ≤ v ∧ v ≤ 10) →
      (∀ w, so.transformPrecision = some w → 0 ≤ w ∧ w ≤ 10) →
      SVGOptimizer.validateOptions so = .ok ()) := by
  refine ⟨?_, ?_, ?_⟩
  · intro env o so v hso hin hfmt hfp hout
    have hbad : (v < 0 || v > 10) = true := by
      rcases hout with h | h <;> simp [h]
    have hval : SVGOptimizer.validateOptions so =
        .error (.svgProcessing "floatPrecision must be between 0 and 10") := by
      unfold SVGOptimizer.validateOptions
      rw [hfp]
      simp [hbad]
    have hvo : IconifyLoader.validateOptions o =
        .error (.svgProcessing "floatPrecision must be between 0 and 10") := by
      unfold IconifyLoader.validateOptions
      rw [hin, formatOk_not_falsy o.format hfmt, hfmt, hso]
      simpa using hval
    rw [load_of_validate_error env o _ hvo]
  · intro env o so w hso hin hfmt hfp htp hout
    have hbad : (w < 0 || w > 10) = true := by
      rcases hout with h | h <;> simp [h]
    have hval : SVGOptimizer.validateOptions so =
        .error (.svgProcessing "transformPrecision must be between 0 and 10") := by
      unfold SVGOptimizer.validateOptions
      rcases hfp with hfp | ⟨v, hfv, hv1, hv2⟩
      · rw [hfp]
        simp [htp, hbad]
      · rw [hfv]
        simp [htp, hbad, not_lt.mpr hv1, not_lt.mpr hv2]
    have hvo : IconifyLoader.validateOptions o =
        .error (.svgProcessing "transformPrecision must be between 0 and 10") := by
      unfold IconifyLoader.validateOptions
      rw [hin, formatOk_not_falsy o.format hfmt, hfmt, hso]
      simpa using hval
    rw [load_of_validate_error env o _ hvo]
  · intro so hfp htp
    unfold SVGOptimizer.validateOptions
    cases hf : so.floatPrecision with
    | none =>
      cases ht : so.transformPrecision with
      | none => rfl
      | some w =>
        obtain ⟨h1, h2⟩ := htp w ht
        simp [not_lt.mpr h1, not_lt.mpr h2]
    | some v =>
      obtain ⟨h1, h2⟩ := hfp v hf
      cases ht : so.transformPrecision with
      | none => simp [not_lt.mpr h1, not_lt.mpr h2]
      | some w =>
        obtain ⟨g1, g2⟩ := htp w ht
        simp [not_lt.mpr h1, not_lt.mpr h2, not_lt.mpr g1, not_lt.mpr g2]

/-- C7 witness: `floatPrecision = 11` is rejected with nothing written; an
in-range `floatPrecision = 2` combined with `transformPrecision = 11` is
rejected with the transform message and nothing written; and the endpoints
`0` and `10` pass. -/
theorem C7_precision_bounds_validated_eagerly_witness :
    IconifyLoader.load envAllOk
      { inputDir := some "./icons", format := some "svg",
        svgoOptions := some { floatPrecision := some 11 } } =
      (.error (.svgProcessing "floatPrecision must be between 0 and 10"), [])
    ∧ IconifyLoader.load envAllOk
        { inputDir := some "./icons", format := some "svg",
          svgoOptions := some { floatPrecision := some 2, transformPrecision := some 11 } } =
        (.error (.svgProcessing "transformPrecision must be between 0 and 10"), [])
    ∧ SVGOptimizer.validateOptions { floatPrecision := some 0, transformPrecision := some 10 } = .ok () := by
  refine ⟨?_, ?_, ?_⟩
  · exact C7_precision_bounds_validated_eagerly.1 envAllOk _ _ 11 rfl rfl (by decide) rfl
      (by right; decide)
  · exact C7_precision_bounds_validated_eagerly.2.1 envAllOk _ _ 11 rfl rfl (by decide)
      (Or.inr ⟨2, rfl, by decide, by decide⟩) rfl (by right; decide)
  · exact C7_precision_bounds_validated_eagerly.2.2 _
      (by intro v hv; cases hv; decide)
      (by intro w hw; cases hw; decide)

/-- C2 counterexample: with an empty walker result and a valid configuration,
`IconifyLoader.load`/`process` does NOT raise a `ValidationError` — the
enclosing catch of `process` rethrows it as an `SVGProcessingError` wrapping
the no-files message. -/
theorem C2_counterexample_error_is_wrapped :
    (IconifyLoader.load envAllOk optsEmptyDir).1 =
      .error (.svgProcessing "IconifyLoader process failed: No SVG files found in directory: ./icons")
    ∧ isValidationResult (IconifyLoader.load envAllOk optsEmptyDir).1 = false := by
  constructor <;> rfl

/-- C2 amended: an empty walker result makes `readSVGs` raise a
`ValidationError` stating that no files were found, and the run performed by
`load`/`process` fails — but with that error rethrown as an
`SVGProcessingError` carrying the no-files message, and nothing written. -/
theorem C2_empty_dir_fails (env : Env) (o : IconifyLoaderOptions) (d : String)
    (hwalk : env.walk = .ok []) (hdir : o.inputDir = some d) :
    IconifyLoader.readSVGs env o =
      .error (.validation ("No SVG files found in directory: " ++ d))
    ∧ (IconifyLoader.validateOptions o = .ok () →
        IconifyLoader.load env o =
          (.error (.svgProcessing
            ("IconifyLoader process failed: " ++ ("No SVG files found in directory: " ++ d))), [])) := by
  have hread : IconifyLoader.readSVGs env o =
      .error (.validation ("No SVG files found in directory: " ++ d)) := by
    unfold IconifyLoader.readSVGs
    rw [hwalk, hdir]
    rfl
  refine ⟨hread, fun hv => ?_⟩
  unfold IconifyLoader.load
  rw [hv]
  unfold IconifyLoader.process
  rw [hread]
  rfl

/-- C2 witness for the amended statement at the concrete empty directory. -/
theorem C2_empty_dir_fails_witness :
    IconifyLoader.readSVGs envAllOk optsEmptyDir =
      .error (.validation ("No SVG files found in directory: " ++ "./icons"))
    ∧ IconifyLoader.load envAllOk optsEmptyDir =
        (.error (.svgProcessing
          ("IconifyLoader process failed: " ++ ("No SVG files found in directory: " ++ "./icons"))), []) := by
  have h := C2_empty_dir_fails envAllOk optsEmptyDir "./icons" rfl rfl
  exact ⟨h.1, h.2 rfl⟩

/-- The width pattern fails immediately at a position whose first character is
not a `w`/`W`. -/
theorem attrTry_width_head_ne (c : Char) (cs : List Char) (h : c.toLower ≠ 'w') :
    attrTry "width".data (c :: cs) = none := by
  have hp : "width".data = 'w' :: "idth".data := rfl
  rw [hp]
  simp [attrTry, eatCI, h]

/-- Skipping one non-`w` character of the scan. -/
theorem attrScan_width_cons (c : Char) (cs : List Char) (h : c.toLower ≠ 'w') :
    attrScan "width".data (c :: cs) = attrScan "width".data cs := by
  simp [attrScan, attrTry_width_head_ne c cs h]

/-- At the `w` of `width="2"…`, the pattern matches with value `2`. -/
theorem attrScan_width_at_match (rest : List Char) :
    attrScan "width".data ("width=\"2\"".data ++ rest) = some ['2'] := by
  simp [attrScan, attrTry, eatCI, isWs, isQuote]

/-- C10: `extractSVGAttributes` scans for the first `width=` occurrence
anywhere, case-insensitively and without an attribute-name boundary: whenever
`stroke-width="2"` occurs before a genuine `width="16"` attribute (and no
`w`/`W` occurs earlier), the extracted width is the stroke-width's value `2`,
not the element's `16`. -/
theorem C10_width_matches_stroke_width (a b : List Char)
    (h : ∀ c ∈ a, c.toLower ≠ 'w') :
    (FileReader.extractSVGAttributes
      (String.mk (a ++ "stroke-width=\"2\" width=\"16\"".data ++ b))).width = some "2" := by
  have hscan : ∀ t : List Char,
      attrScan "width".data ("stroke-width=\"2\" width=\"16\"".data ++ t) = some ['2'] := by
    intro t
    rw [show "stroke-width=\"2\" width=\"16\"".data ++ t =
        's' :: 't' :: 'r' :: 'o' :: 'k' :: 'e' :: '-' ::
          ("width=\"2\"".data ++ (" width=\"16\"".data ++ t)) from rfl]
    rw [attrScan_width_cons _ _ (by decide), attrScan_width_cons _ _ (by decide),
      attrScan_width_cons _ _ (by decide), attrScan_width_cons _ _ (by decide),
      attrScan_width_cons _ _ (by decide), attrScan_width_cons _ _ (by decide),
      attrScan_width_cons _ _ (by decide), attrScan_width_at_match]
  have hmain : attrScan "width".data (a ++ "stroke-width=\"2\" width=\"16\"".data ++ b) = some ['2'] := by
    induction a with
    | nil => simpa using hscan b
    | cons c cs ih =>
      rw [List.cons_append, List.cons_append,
        attrScan_width_cons c _ (h c (List.mem_cons_self c cs))]
      exact ih (fun d hd => h d (List.mem_cons_of_mem c hd))
  show (attrScan "width".data (a ++ "stroke-width=\"2\" width=\"16\"".data ++ b)).map List.asString = some "2"
  rw [hmain]
  rfl

/-- C10 witness: a concrete SVG tag whose `stroke-width` precedes `width`. -/
theorem C10_width_matches_stroke_width_witness :
    (FileReader.extractSVGAttributes
      (String.mk ("<svg ".data ++ "stroke-width=\"2\" width=\"16\"".data ++ "/>".data))).width = some "2" :=
  C10_width_matches_stroke_width "<svg ".data "/>".data (by decide)

/-- C3 counterexample: the output file is named `icon-arrow`, not
`icon-arrow.svg` — the formatter's value is used verbatim and no `.svg`
extension is appended; the write log of the run holds no other path. -/
theorem C3_counterexample_no_svg_extension :
    (SVGGenerator.generateSVGFile arrowIcon optsIconNamer).1 = "./icon-arrow"
    ∧ "./icon-arrow" ≠ "./icon-arrow.svg"
    ∧ (SVGGenerator.generateSVGs envAllOk [arrowIcon] optsIconNamer).2 = ["./icon-arrow"] := by
  refine ⟨rfl, by decide, rfl⟩

set_option maxRecDepth 8192 in
/-- C3 amended: with the custom `fileNamer` and format `svg`, the file written
for `arrow.svg` is `icon-arrow` (formatter output used verbatim, no extension
appended), and the root `<svg>` tag of the written content carries every
`svgProps` entry merged after the retained existing attributes. -/
theorem C3_custom_namer_scenario :
    SVGGenerator.generateSVGFile arrowIcon optsIconNamer =
      ("./icon-arrow",
       "<svg viewBox=\"0 0 24 24\" width=\"16\" height=\"16\" class=\"icon\" stroke=\"none\">\n<path d=\"M0 0h24v24H0z\"/>\n</svg>") := by
  rfl

/-- Associativity of string append (data-level). -/
theorem strAppendAssoc (a b c : String) : a ++ b ++ c = a ++ (b ++ c) := by
  apply String.ext
  simp [String.data_append]

/-- `prepareSVGContent` reads only the raw content. -/
theorem reactPrepare_content_only (s1 s2 : ProcessedSVG) (h : s1.content = s2.content) :
    ReactGenerator.prepareSVGContent s1 = ReactGenerator.prepareSVGContent s2 := by
  unfold ReactGenerator.prepareSVGContent
  rw [h]

set_option maxRecDepth 16384 in
/-- C8: every generated React component wraps the embedded markup in an
`<svg>` element carrying the fixed `viewBox="0 0 24 24"` attribute and the
props spread, immediately followed by the prepared inner markup embedded
literally (first conjunct); declares the `size`/`fill` default props (second
conjunct); and is entirely independent of the icon's extracted metadata — in
particular of its own `viewBox` — depending only on the raw content (third
conjunct). -/
theorem C8_react_fixed_viewbox_wrapper :
    (∀ (svg : ProcessedSVG) (name : String) (o : IconifyLoaderOptions),
      ∃ x y, ReactGenerator.renderComponent (ReactGenerator.createComponentTemplate svg name o) =
        x ++ "      viewBox=\"0 0 24 24\"\n      \x7b...props\x7d\n    >\n"
          ++ (ReactGenerator.prepareSVGContent svg ++ y))
    ∧ (∀ (svg : ProcessedSVG) (name : String) (o : IconifyLoaderOptions),
      ∃ x y, ReactGenerator.renderComponent (ReactGenerator.createComponentTemplate svg name o) =
        x ++ "(\x7b\n  size = \x271em\x27,\n  fill = \x27currentColor\x27,\n  ...props\n\x7d) => \x7b\n" ++ y)
    ∧ (∀ (s1 s2 : ProcessedSVG) (name : String) (o : IconifyLoaderOptions),
      s1.content = s2.content →
      ReactGenerator.renderComponent (ReactGenerator.createComponentTemplate s1 name o) =
      ReactGenerator.renderComponent (ReactGenerator.createComponentTemplate s2 name o)) := by
  refine ⟨?_, ?_, ?_⟩
  · intro svg name o
    unfold ReactGenerator.renderComponent ReactGenerator.createComponentTemplate
    cases h : truthy o.typescript with
    | true =>
      refine ⟨"import React from \x27react\x27;\n\nexport interface "
          ++ (name ++ ("Props extends React.SVGProps<SVGSVGElement> \x7b\n  size?: number | string;\n\x7d\n\nconst "
          ++ (name ++ (": React.FC<"
          ++ (name ++ "Props> = (\x7b\n  size = \x271em\x27,\n  fill = \x27currentColor\x27,\n  ...props\n\x7d) => \x7b\n  return (\n    <svg\n      width=\x7bsize\x7d\n      height=\x7bsize\x7d\n      fill=\x7bfill\x7d\n"))))),
        "\n    </svg>\n  );\n\x7d;\n\nexport default " ++ (name ++ ";\n"), ?_⟩
      simp only [h, if_true]
      apply String.ext
      simp only [String.data_append, List.append_assoc, List.cons_append]
      rfl
    | false =>
      refine ⟨"import React from \x27react\x27;\n\nconst "
          ++ (name ++ " = (\x7b\n  size = \x271em\x27,\n  fill = \x27currentColor\x27,\n  ...props\n\x7d) => \x7b\n  return (\n    <svg\n      width=\x7bsize\x7d\n      height=\x7bsize\x7d\n      fill=\x7bfill\x7d\n"),
        "\n    </svg>\n  );\n\x7d;\n\nexport default " ++ (name ++ ";\n"), ?_⟩
      simp only [h, if_false, Bool.false_eq_true]
      apply String.ext
      simp only [String.data_append, List.append_assoc, List.cons_append]
      rfl
  · intro svg name o
    unfold ReactGenerator.renderComponent ReactGenerator.createComponentTemplate
    cases h : truthy o.typescript with
    | true =>
      refine ⟨"import React from \x27react\x27;\n\nexport interface "
          ++ (name ++ ("Props extends React.SVGProps<SVGSVGElement> \x7b\n  size?: number | string;\n\x7d\n\nconst "
          ++ (name ++ (": React.FC<" ++ (name ++ "Props> = "))))),
        "  return (\n    <svg\n      width=\x7bsize\x7d\n      height=\x7bsize\x7d\n      fill=\x7bfill\x7d\n      viewBox=\"0 0 24 24\"\n      \x7b...props\x7d\n    >\n"
          ++ (ReactGenerator.prepareSVGContent svg
          ++ ("\n    </svg>\n  );\n\x7d;\n\nexport default " ++ (name ++ ";\n"))), ?_⟩
      simp only [h, if_true]
      apply String.ext
      simp only [String.data_append, List.append_assoc, List.cons_append]
      rfl
    | false =>
      refine ⟨"import React from \x27react\x27;\n\nconst " ++ (name ++ " = "),
        "  return (\n    <svg\n      width=\x7bsize\x7d\n      height=\x7bsize\x7d\n      fill=\x7bfill\x7d\n      viewBox=\"0 0 24 24\"\n      \x7b...props\x7d\n    >\n"
          ++ (ReactGenerator.prepareSVGContent svg
          ++ ("\n    </svg>\n  );\n\x7d;\n\nexport default " ++ (name ++ ";\n"))), ?_⟩
      simp only [h, if_false, Bool.false_eq_true]
      apply String.ext
      simp only [String.data_append, List.append_assoc, List.cons_append]
      rfl
  · intro s1 s2 name o h
    unfold ReactGenerator.renderComponent ReactGenerator.createComponentTemplate
    rw [reactPrepare_content_only s1 s2 h]

/-- C8 witness: the fixed-viewBox decomposition at a concrete icon, and
insensitivity to the icon's own extracted viewBox metadata. -/
theorem C8_react_fixed_viewbox_wrapper_witness :
    (∃ x y, ReactGenerator.renderComponent (ReactGenerator.createComponentTemplate arrowIcon "Arrow" {}) =
      x ++ "      viewBox=\"0 0 24 24\"\n      \x7b...props\x7d\n    >\n"
        ++ (ReactGenerator.prepareSVGContent arrowIcon ++ y))
    ∧ ReactGenerator.renderComponent (ReactGenerator.createComponentTemplate arrowIcon "Arrow" {}) =
      ReactGenerator.renderComponent (ReactGenerator.createComponentTemplate arrowIconAlt "Arrow" {}) :=
  ⟨C8_react_fixed_viewbox_wrapper.1 arrowIcon "Arrow" {},
   C8_react_fixed_viewbox_wrapper.2.2 arrowIcon arrowIconAlt "Arrow" {} rfl⟩

/-- C4: with optimization enabled, a batch whose files all pass content
validation is processed in full — one `ProcessedSVG` per input file, in order
(first conjunct) — and any file on which the optimizer fails passes through
with its un-optimized content and `optimized = false` (second conjunct). -/
theorem C4_optimizer_failure_is_nonfatal (env : Env) (o : IconifyLoaderOptions)
    (files : List FileInfo)
    (hopt : o.optimize = some true)
    (hv : ∀ f ∈ files, FileReader.validateSVGContent f.content f.name = .ok ()) :
    IconifyLoader.processSVGs env o files =
      .ok (files.map (IconifyLoader.processedOf env o))
    ∧ (∀ (f : FileInfo) (e : IconErr),
        SVGOptimizer.optimizeSVG env f.content (o.svgoOptions.getD {}) f.name = .error e →
        (IconifyLoader.processedOf env o f).content = f.content
        ∧ (IconifyLoader.processedOf env o f).optimized = false) := by
  constructor
  · induction files with
    | nil => rfl
    | cons f rest ih =>
      have hval := hv f (List.mem_cons_self f rest)
      have hrest := ih (fun g hg => hv g (List.mem_cons_of_mem f hg))
      unfold IconifyLoader.processSVGs
      rw [hval, hrest]
      rfl
  · intro f e he
    unfold IconifyLoader.processedOf
    rw [hopt]
    simp [he, truthy]

/-- C4 witness: a one-file batch under an always-failing engine. -/
theorem C4_optimizer_failure_is_nonfatal_witness :
    IconifyLoader.processSVGs envEngineFail { optimize := some true } [arrowFile] =
      .ok [IconifyLoader.processedOf envEngineFail { optimize := some true } arrowFile]
    ∧ (IconifyLoader.processedOf envEngineFail { optimize := some true } arrowFile).content = arrowFile.content
    ∧ (IconifyLoader.processedOf envEngineFail { optimize := some true } arrowFile).optimized = false := by
  have h := C4_optimizer_failure_is_nonfatal envEngineFail { optimize := some true } [arrowFile]
    rfl (by intro f hf; cases hf with | head => rfl | tail _ hh => cases hh)
  have h2 := h.2 arrowFile
    (.svgProcessing "SVGO optimization failed: Invalid or unexpected token") rfl
  exact ⟨h.1, h2.1, h2.2⟩

/-- C9: `load`/`process` never merge in `getDefaultOptions`: although the
declared defaults set `optimize := true` and `generateIndex := true` (first
two conjuncts), a configuration that omits `optimize` is processed with no
optimization at all — every item keeps its raw content with
`optimized = false` (third conjunct) — and a configuration that omits
`generateIndex` writes only the per-item files, no index (fourth conjunct:
the write log of the SVG and React renderers equals the per-item write log,
and the JSON renderer writes at most the aggregate file). -/
theorem C9_defaults_declared_but_not_applied :
    IconifyLoader.getDefaultOptions.optimize = some true
    ∧ IconifyLoader.getDefaultOptions.generateIndex = some true
    ∧ (∀ (env : Env) (o : IconifyLoaderOptions) (files : List FileInfo),
        o.optimize = none →
        (∀ f ∈ files, FileReader.validateSVGContent f.content f.name = .ok ()) →
        IconifyLoader.processSVGs env o files =
          .ok (files.map (fun f =>
            { metadata := IconifyLoader.metadataOf f, content := f.content, optimized := false })))
    ∧ (∀ (env : Env) (o : IconifyLoaderOptions) (svgs : List ProcessedSVG),
        o.generateIndex = none → dirOk env o →
        (SVGGenerator.generateSVGs env svgs o).2 = (SVGGenerator.svgItems env o svgs).2.2
        ∧ (ReactGenerator.generateComponents env svgs o).2 = (ReactGenerator.reactItems env o svgs).2.2
        ∧ ((JSONGenerator.generateJSON env svgs o).2 = []
          ∨ (JSONGenerator.generateJSON env svgs o).2 =
              [joinPath o.outputDir (JSONGenerator.jsonMainFileName o)])) := by
  refine ⟨rfl, rfl, ?_, ?_⟩
  · intro env o files hopt hv
    induction files with
    | nil => rfl
    | cons f rest ih =>
      have hval := hv f (List.mem_cons_self f rest)
      have hrest := ih (fun g hg => hv g (List.mem_cons_of_mem f hg))
      unfold IconifyLoader.processSVGs
      rw [hval, hrest]
      have hone : IconifyLoader.processedOf env o f =
          { metadata := IconifyLoader.metadataOf f, content := f.content, optimized := false } := by
        unfold IconifyLoader.processedOf
        rw [hopt]
        rfl
      rw [List.map_cons, hone]
  · intro env o svgs hgi hdir
    have hti : truthy o.generateIndex = false := by rw [hgi]; rfl
    refine ⟨?_, ?_, ?_⟩
    · rcases hitems : SVGGenerator.svgItems env o svgs with ⟨fs, es, ws⟩
      cases hout : o.outputDir with
      | none => simp [SVGGenerator.generateSVGs, hout, SVGGenerator.svgRun, hitems, hti]
      | some d =>
        have hmk : env.mkdirOk d = true := by
          have h2 := hdir
          unfold dirOk at h2
          rw [hout] at h2
          exact h2
        simp [SVGGenerator.generateSVGs, hout, hmk, SVGGenerator.svgRun, hitems, hti]
    · rcases hitems : ReactGenerator.reactItems env o svgs with ⟨fs, es, ws⟩
      cases hout : o.outputDir with
      | none => simp [ReactGenerator.generateComponents, hout, ReactGenerator.reactRun, hitems, hti]
      | some d =>
        have hmk : env.mkdirOk d = true := by
          have h2 := hdir
          unfold dirOk at h2
          rw [hout] at h2
          exact h2
        simp [ReactGenerator.generateComponents, hout, hmk, ReactGenerator.reactRun, hitems, hti]
    · by_cases hw : env.writeOk (joinPath o.outputDir (JSONGenerator.jsonMainFileName o)) = true
      · right
        cases hout : o.outputDir with
        | none =>
          rw [hout] at hw
          simp [JSONGenerator.generateJSON, hout, JSONGenerator.jsonRun, hti, hw]
        | some d =>
          have hmk : env.mkdirOk d = true := by
            have h2 := hdir
            unfold dirOk at h2
            rw [hout] at h2
            exact h2
          rw [hout] at hw
          simp [JSONGenerator.generateJSON, hout, hmk, JSONGenerator.jsonRun, hti, hw]
      · left
        rw [Bool.not_eq_true] at hw
        cases hout : o.outputDir with
        | none =>
          rw [hout] at hw
          simp [JSONGenerator.generateJSON, hout, JSONGenerator.jsonRun, hti, hw]
        | some d =>
          have hmk : env.mkdirOk d = true := by
            have h2 := hdir
            unfold dirOk at h2
            rw [hout] at h2
            exact h2
          rw [hout] at hw
          simp [JSONGenerator.generateJSON, hout, hmk, JSONGenerator.jsonRun, hti, hw]

/-- C9 witness: an `optimize`- and `generateIndex`-omitting configuration at
concrete inputs (the engine could even rewrite content — it is never asked). -/
theorem C9_defaults_declared_but_not_applied_witness :
    IconifyLoader.processSVGs envEngineFail { format := some "svg" } [arrowFile] =
      .ok [{ metadata := IconifyLoader.metadataOf arrowFile, content := arrowFile.content,
             optimized := false }]
    ∧ (SVGGenerator.generateSVGs envAllOk [arrowIcon] { format := some "svg" }).2 =
        (SVGGenerator.svgItems envAllOk { format := some "svg" } [arrowIcon]).2.2 := by
  constructor
  · exact C9_defaults_declared_but_not_applied.2.2.1 envEngineFail { format := some "svg" } [arrowFile]
      rfl (by intro f hf; cases hf with | head => rfl | tail _ hh => cases hh)
  · exact (C9_defaults_declared_but_not_applied.2.2.2 envAllOk { format := some "svg" } [arrowIcon]
      rfl trivial).1

/-- Per-item loop of the SVG renderer: each item lands in `files` or in
`errors`. -/
theorem svgItems_count (env : Env) (o : IconifyLoaderOptions) (svgs : List ProcessedSVG) :
    (SVGGenerator.svgItems env o svgs).1.length
      + (SVGGenerator.svgItems env o svgs).2.1.length = svgs.length := by
  induction svgs with
  | nil => rfl
  | cons svg rest ih =>
    rcases hitems : SVGGenerator.svgItems env o rest with ⟨fs, es, ws⟩
    rw [hitems] at ih
    unfold SVGGenerator.svgItems
    rw [hitems]
    by_cases hw : env.writeOk (SVGGenerator.generateSVGFile svg o).1 = true
    · simp only at ih
      simp [hw]
      omega
    · rw [Bool.not_eq_true] at hw
      simp only at ih
      simp [hw]
      omega

/-- Per-item loop of the React renderer: each item lands in `files` or in
`errors`. -/
theorem reactItems_count (env : Env) (o : IconifyLoaderOptions) (svgs : List ProcessedSVG) :
    (ReactGenerator.reactItems env o svgs).1.length
      + (ReactGenerator.reactItems env o svgs).2.1.length = svgs.length := by
  induction svgs with
  | nil => rfl
  | cons svg rest ih =>
    rcases hitems : ReactGenerator.reactItems env o rest with ⟨fs, es, ws⟩
    rw [hitems] at ih
    unfold ReactGenerator.reactItems
    rw [hitems]
    by_cases hw : env.writeOk (ReactGenerator.generateComponentFile svg o).1 = true
    · simp only at ih
      simp [hw]
      omega
    · rw [Bool.not_eq_true] at hw
      simp only at ih
      simp [hw]
      omega

/-- `svgRun` keeps `success = errors.isEmpty`. -/
theorem svgRun_success_iff (env : Env) (o : IconifyLoaderOptions) (svgs : List ProcessedSVG) :
    (SVGGenerator.svgRun env o svgs).1.success
      = (SVGGenerator.svgRun env o svgs).1.errors.isEmpty := by
  rcases hitems : SVGGenerator.svgItems env o svgs with ⟨fs, es, ws⟩
  by_cases hgi : truthy o.generateIndex = true
  · by_cases hw : env.writeOk (SVGGenerator.indexPath o) = true
    · simp [SVGGenerator.svgRun, hitems, hgi, hw]
    · rw [Bool.not_eq_true] at hw
      simp [SVGGenerator.svgRun, hitems, hgi, hw]
  · rw [Bool.not_eq_true] at hgi
    simp [SVGGenerator.svgRun, hitems, hgi]

/-- `reactRun` keeps `success = errors.isEmpty`. -/
theorem reactRun_success_iff (env : Env) (o : IconifyLoaderOptions) (svgs : List ProcessedSVG) :
    (ReactGenerator.reactRun env o svgs).1.success
      = (ReactGenerator.reactRun env o svgs).1.errors.isEmpty := by
  rcases hitems : ReactGenerator.reactItems env o svgs with ⟨fs, es, ws⟩
  by_cases hgi : truthy o.generateIndex = true
  · by_cases hw : env.writeOk (ReactGenerator.indexPath o) = true
    · simp [ReactGenerator.reactRun, hitems, hgi, hw]
    · rw [Bool.not_eq_true] at hw
      simp [ReactGenerator.reactRun, hitems, hgi, hw]
  · rw [Bool.not_eq_true] at hgi
    simp [ReactGenerator.reactRun, hitems, hgi]

/-- `jsonRun` keeps `success = errors.isEmpty`. -/
theorem jsonRun_success_iff (env : Env) (o : IconifyLoaderOptions) (svgs : List ProcessedSVG) :
    (JSONGenerator.jsonRun env o svgs).1.success
      = (JSONGenerator.jsonRun env o svgs).1.errors.isEmpty := by
  rcases hind : JSONGenerator.jsonIndividuals env o svgs with ⟨ifs, iws, e⟩
  by_cases hw : env.writeOk (joinPath o.outputDir (JSONGenerator.jsonMainFileName o)) = true
  · by_cases hgi : truthy o.generateIndex = true
    · cases e with
      | none => simp [JSONGenerator.jsonRun, hind, hgi, hw]
      | some m => simp [JSONGenerator.jsonRun, hind, hgi, hw]
    · rw [Bool.not_eq_true] at hgi
      simp [JSONGenerator.jsonRun, hind, hgi, hw]
  · rw [Bool.not_eq_true] at hw
    by_cases hgi : truthy o.generateIndex = true
    · cases e with
      | none => simp [JSONGenerator.jsonRun, hind, hgi, hw]
      | some m => simp [JSONGenerator.jsonRun, hind, hgi, hw]
    · rw [Bool.not_eq_true] at hgi
      simp [JSONGenerator.jsonRun, hind, hgi, hw]

/-- `svgRun` attempts every item and the optional index. -/
theorem svgRun_count (env : Env) (o : IconifyLoaderOptions) (svgs : List ProcessedSVG) :
    (SVGGenerator.svgRun env o svgs).1.files.length
      + (SVGGenerator.svgRun env o svgs).1.errors.length
      = svgs.length + (if truthy o.generateIndex then 1 else 0) := by
  have hc := svgItems_count env o svgs
  rcases hitems : SVGGenerator.svgItems env o svgs with ⟨fs, es, ws⟩
  rw [hitems] at hc
  simp only at hc
  by_cases hgi : truthy o.generateIndex = true
  · by_cases hw : env.writeOk (SVGGenerator.indexPath o) = true
    · simp [SVGGenerator.svgRun, hitems, hgi, hw]
      omega
    · rw [Bool.not_eq_true] at hw
      simp [SVGGenerator.svgRun, hitems, hgi, hw]
      omega
  · rw [Bool.not_eq_true] at hgi
    simp [SVGGenerator.svgRun, hitems, hgi]
    omega

/-- `reactRun` attempts every item and the optional index. -/
theorem reactRun_count (env : Env) (o : IconifyLoaderOptions) (svgs : List ProcessedSVG) :
    (ReactGenerator.reactRun env o svgs).1.files.length
      + (ReactGenerator.reactRun env o svgs).1.errors.length
      = svgs.length + (if truthy o.generateIndex then 1 else 0) := by
  have hc := reactItems_count env o svgs
  rcases hitems : ReactGenerator.reactItems env o svgs with ⟨fs, es, ws⟩
  rw [hitems] at hc
  simp only at hc
  by_cases hgi : truthy o.generateIndex = true
  · by_cases hw : env.writeOk (ReactGenerator.indexPath o) = true
    · simp [ReactGenerator.reactRun, hitems, hgi, hw]
      omega
    · rw [Bool.not_eq_true] at hw
      simp [ReactGenerator.reactRun, hitems, hgi, hw]
      omega
  · rw [Bool.not_eq_true] at hgi
    simp [ReactGenerator.reactRun, hitems, hgi]
    omega

/-- C1 amended: every renderer returns `success = true` iff its `errors` list
is empty (first three conjuncts, all exit paths included). For the SVG and
React renderers, per-item failures are appended and never stop the remaining
items: once the output directory exists, every item contributes exactly one
entry to `files` or `errors`, plus one for the index when requested (last two
conjuncts). The JSON renderer keeps the invariant but aborts its per-icon
file loop at the first failed write. -/
theorem C1_success_iff_errors_empty :
    (∀ (env : Env) (svgs : List ProcessedSVG) (o : IconifyLoaderOptions),
      (SVGGenerator.generateSVGs env svgs o).1.success
        = (SVGGenerator.generateSVGs env svgs o).1.errors.isEmpty)
    ∧ (∀ (env : Env) (svgs : List ProcessedSVG) (o : IconifyLoaderOptions),
      (ReactGenerator.generateComponents env svgs o).1.success
        = (ReactGenerator.generateComponents env svgs o).1.errors.isEmpty)
    ∧ (∀ (env : Env) (svgs : List ProcessedSVG) (o : IconifyLoaderOptions),
      (JSONGenerator.generateJSON env svgs o).1.success
        = (JSONGenerator.generateJSON env svgs o).1.errors.isEmpty)
    ∧ (∀ (env : Env) (svgs : List ProcessedSVG) (o : IconifyLoaderOptions),
      dirOk env o →
      (SVGGenerator.generateSVGs env svgs o).1.files.length
        + (SVGGenerator.generateSVGs env svgs o).1.errors.length
        = svgs.length + (if truthy o.generateIndex then 1 else 0))
    ∧ (∀ (env : Env) (svgs : List ProcessedSVG) (o : IconifyLoaderOptions),
      dirOk env o →
      (ReactGenerator.generateComponents env svgs o).1.files.length
        + (ReactGenerator.generateComponents env svgs o).1.errors.length
        = svgs.length + (if truthy o.generateIndex then 1 else 0)) := by
  refine ⟨?_, ?_, ?_, ?_, ?_⟩
  · intro env svgs o
    cases hout : o.outputDir with
    | none => simpa [SVGGenerator.generateSVGs, hout] using svgRun_success_iff env o svgs
    | some d =>
      by_cases hmk : env.mkdirOk d = true
      · simpa [SVGGenerator.generateSVGs, hout, hmk] using svgRun_success_iff env o svgs
      · rw [Bool.not_eq_true] at hmk
        simp [SVGGenerator.generateSVGs, hout, hmk]
  · intro env svgs o
    cases hout : o.outputDir with
    | none => simpa [ReactGenerator.generateComponents, hout] using reactRun_success_iff env o svgs
    | some d =>
      by_cases hmk : env.mkdirOk d = true
      · simpa [ReactGenerator.generateComponents, hout, hmk] using reactRun_success_iff env o svgs
      · rw [Bool.not_eq_true] at hmk
        simp [ReactGenerator.generateComponents, hout, hmk]
  · intro env svgs o
    cases hout : o.outputDir with
    | none => simpa [JSONGenerator.generateJSON, hout] using jsonRun_success_iff env o svgs
    | some d =>
      by_cases hmk : env.mkdirOk d = true
      · simpa [JSONGenerator.generateJSON, hout, hmk] using jsonRun_success_iff env o svgs
      · rw [Bool.not_eq_true] at hmk
        simp [JSONGenerator.generateJSON, hout, hmk]
  · intro env svgs o hdir
    cases hout : o.outputDir with
    | none => simpa [SVGGenerator.generateSVGs, hout] using svgRun_count env o svgs
    | some d =>
      have hmk : env.mkdirOk d = true := by
        have h2 := hdir
        unfold dirOk at h2
        rw [hout] at h2
        exact h2
      simpa [SVGGenerator.generateSVGs, hout, hmk] using svgRun_count env o svgs
  · intro env svgs o hdir
    cases hout : o.outputDir with
    | none => simpa [ReactGenerator.generateComponents, hout] using reactRun_count env o svgs
    | some d =>
      have hmk : env.mkdirOk d = true := by
        have h2 := hdir
        unfold dirOk at h2
        rw [hout] at h2
        exact h2
      simpa [ReactGenerator.generateComponents, hout, hmk] using reactRun_count env o svgs

/-- C1 counterexample: in the JSON renderer with `generateIndex` on, the
failed write of icon `a`'s per-icon file stops icon `b`'s file from ever
being attempted — `./b.json` would have succeeded but is absent from the
write log — refuting "per-item failures … do not stop the remaining items"
for `JSONGenerator.generateJSON`. -/
theorem C1_counterexample_json_aborts_remaining :
    envFailA.writeOk "./b.json" = true
    ∧ (JSONGenerator.generateJSON envFailA [iconA, iconB]
        { format := some "json", generateIndex := some true }).2 = ["./icons.json"]
    ∧ (JSONGenerator.generateJSON envFailA [iconA, iconB]
        { format := some "json", generateIndex := some true }).1.errors =
      ["Failed to generate individual JSON files: Failed to generate individual JSON file for a"] := by
  refine ⟨rfl, rfl, rfl⟩

/-- C1 witness: the success-iff-empty-errors invariant and the all-items
accounting applied at a concrete one-icon run. -/
theorem C1_success_iff_errors_empty_witness :
    (SVGGenerator.generateSVGs envAllOk [iconA] { format := some "svg" }).1.success
      = (SVGGenerator.generateSVGs envAllOk [iconA] { format := some "svg" }).1.errors.isEmpty
    ∧ (SVGGenerator.generateSVGs envAllOk [iconA] { format := some "svg" }).1.files.length
      + (SVGGenerator.generateSVGs envAllOk [iconA] { format := some "svg" }).1.errors.length
      = 1 + (if truthy ({ format := some "svg" } : IconifyLoaderOptions).generateIndex then 1 else 0) :=
  ⟨C1_success_iff_errors_empty.1 envAllOk [iconA] { format := some "svg" },
   C1_success_iff_errors_empty.2.2.2.1 envAllOk [iconA] { format := some "svg" } trivial⟩
